import Mathlib

/-!
Shallow embedding of `pygeo/constraints/thicknessConstraint.py`:
the six geometric constraint classes (`ThicknessConstraint`,
`ProjectedThicknessConstraint`, `ThicknessToChordConstraint`,
`KSMaxThicknessToChordConstraint`, `TESlopeConstraint`,
`ProximityConstraint`) with their constructors, `evalFunctions`,
`evalFunctionsSens` and `writeTecplot` methods.

Numeric scalars are embedded as rationals (`ℚ`); the complex numbers used
by the complex-step differentiation in `TESlopeConstraint` are embedded as
Gaussian rationals (`GQ`).  The external collaborators — the geometry
engine `DVGeo` and the `geo_utils` numeric helpers (square root,
`eDist_b`, the KS aggregation functions), none of which live in this
module — are abstracted as structures of opaque-by-parameterization
function fields.
-/

set_option maxHeartbeats 1000000

/-- A 3-D point with rational coordinates (one row of a numpy `(n, 3)`
coordinate array). -/
structure Pt where
  x : ℚ
  y : ℚ
  z : ℚ
deriving DecidableEq, Repr

instance : Zero Pt := ⟨⟨0, 0, 0⟩⟩

/-- Pointwise subtraction of coordinates, `p - q` in numpy. -/
def Pt.sub (p q : Pt) : Pt := ⟨p.x - q.x, p.y - q.y, p.z - q.z⟩

/-- Pointwise addition of coordinates, `p + q` in numpy. -/
def Pt.add (p q : Pt) : Pt := ⟨p.x + q.x, p.y + q.y, p.z + q.z⟩

/-- Pointwise negation, `-p` in numpy. -/
def Pt.neg (p : Pt) : Pt := ⟨-p.x, -p.y, -p.z⟩

/-- Scaling a coordinate vector by a scalar, `a * p` in numpy. -/
def Pt.scaleQ (a : ℚ) (p : Pt) : Pt := ⟨a * p.x, a * p.y, a * p.z⟩

/-- Dividing a coordinate vector by a scalar, `p / a` in numpy. -/
def Pt.divQ (p : Pt) (a : ℚ) : Pt := ⟨p.x / a, p.y / a, p.z / a⟩

/-- Dot product of two coordinate vectors. -/
def Pt.dot (p q : Pt) : ℚ := p.x * q.x + p.y * q.y + p.z * q.z

/-- Component access: component `0` is `x`, `1` is `y`, anything else `z`
(only indices `0`, `1`, `2` occur). -/
def Pt.c (p : Pt) : ℕ → ℚ
  | 0 => p.x
  | 1 => p.y
  | _ => p.z

/-- A Gaussian rational: the embedding of one numpy complex number as used
by the complex-step differentiation in `TESlopeConstraint`. -/
structure GQ where
  re : ℚ
  im : ℚ
deriving DecidableEq, Repr

instance : Zero GQ := ⟨⟨0, 0⟩⟩

/-- Complex addition. -/
def GQ.add (a b : GQ) : GQ := ⟨a.re + b.re, a.im + b.im⟩

/-- Complex subtraction. -/
def GQ.sub (a b : GQ) : GQ := ⟨a.re - b.re, a.im - b.im⟩

/-- Complex multiplication. -/
def GQ.mul (a b : GQ) : GQ :=
  ⟨a.re * b.re - a.im * b.im, a.re * b.im + a.im * b.re⟩

/-- Complex inverse (`conj z / |z|²`; the rational division sends `0` to
`0`, so `GQ.inv 0 = 0`). -/
def GQ.inv (a : GQ) : GQ :=
  let n := a.re * a.re + a.im * a.im
  ⟨a.re / n, -a.im / n⟩

/-- Complex division. -/
def GQ.div (a b : GQ) : GQ := a.mul b.inv

/-- Scaling a complex number by a rational. -/
def GQ.scaleQ (q : ℚ) (a : GQ) : GQ := ⟨q * a.re, q * a.im⟩

/-- Embedding of a real scalar as a complex one (`astype("D")`). -/
def GQ.ofQ (q : ℚ) : GQ := ⟨q, 0⟩

/-- A 3-D point with Gaussian-rational coordinates (one row of a complex
numpy coordinate array). -/
structure GPt where
  x : GQ
  y : GQ
  z : GQ
deriving DecidableEq, Repr

instance : Zero GPt := ⟨⟨0, 0, 0⟩⟩

/-- Pointwise complex subtraction of coordinate vectors. -/
def GPt.sub (p q : GPt) : GPt := ⟨p.x.sub q.x, p.y.sub q.y, p.z.sub q.z⟩

/-- Pointwise complex addition of coordinate vectors. -/
def GPt.add (p q : GPt) : GPt := ⟨p.x.add q.x, p.y.add q.y, p.z.add q.z⟩

/-- Scaling a complex coordinate vector by a rational scalar. -/
def GPt.scaleQ (q : ℚ) (p : GPt) : GPt := ⟨p.x.scaleQ q, p.y.scaleQ q, p.z.scaleQ q⟩

/-- Complex dot product (no conjugation, matching `np.sum(v * v)`). -/
def GPt.dot (p q : GPt) : GQ :=
  ((p.x.mul q.x).add (p.y.mul q.y)).add (p.z.mul q.z)

/-- Embedding of a real point as a complex one (`coords.astype("D")`). -/
def Pt.toGQ (p : Pt) : GPt := ⟨GQ.ofQ p.x, GQ.ofQ p.y, GQ.ofQ p.z⟩

/-- Adding a complex increment to coordinate `j` of a complex point
(`coords[i, j] += step`). -/
def GPt.pert (j : ℕ) (d : GQ) (p : GPt) : GPt :=
  if j = 0 then { p with x := p.x.add d }
  else if j = 1 then { p with y := p.y.add d }
  else { p with z := p.z.add d }

/-- Modelled from the spec: the `geo_utils` numeric helpers live outside
this module ("Euclidean distances, ratios, KS-aggregated maxima"), so the
square root, the reverse-mode distance seeds `eDist_b`, and the KS
aggregation `KSfunction.compute` / `KSfunction.derivatives` are abstracted
as arbitrary function fields; all theorems hold for every choice. -/
structure GU where
  sqrtQ : ℚ → ℚ
  eDistB : Pt → Pt → Pt × Pt
  KScompute : List ℚ → ℚ → String → ℚ
  KSderivs : List ℚ → ℚ → String → List ℚ
  csqrt : GQ → GQ

/-- Embedding of `geo_utils.norm.euclideanNorm`: the Euclidean norm of a coordinate
vector, with the square root abstract. -/
def GU.eNorm (gu : GU) (p : Pt) : ℚ := gu.sqrtQ (p.dot p)

/-- Embedding of `geo_utils.norm.eDist` / `np.linalg.norm (p - q)`: Euclidean distance
between two points. -/
def GU.eDist (gu : GU) (p q : Pt) : ℚ := gu.eNorm (p.sub q)

/-- Complex-safe Euclidean norm, `np.sqrt(np.sum(v * v))` on complex data. -/
def GU.eNormC (gu : GU) (p : GPt) : GQ := gu.csqrt (p.dot p)

/-- A design-variable sensitivity dictionary, as returned by
`DVGeo.totalSensitivity`: design-variable name to (abstracted) value. -/
abbrev SensDict := List (String × ℚ)

/-- The `funcsSens` dictionary: constraint name to sensitivity dictionary. -/
abbrev FuncsSens := List (String × SensDict)

/-- Jacobian of shape `(nCon, nPts, 3)`: constraint row, point index,
coordinate index. -/
abbrev Jac := ℕ → ℕ → ℕ → ℚ

/-- Point-seed array of shape `(nPts, 3)`. -/
abbrev JacV := ℕ → ℕ → ℚ

/-- The external geometry-parameterization engine, out of scope per the
spec: `update`, `getNDV` and `totalSensitivity` (in both Jacobian shapes
used by the module) are abstract function fields. -/
structure DVGeo where
  ndv : ℕ
  update : String → List Pt
  totalSensitivity : Jac → String → SensDict
  totalSensitivityV : JacV → String → SensDict

/-- Effects a constraint constructor performs, in program order:
registering a point set with `DVGeo.addPointSet`, and computing the
baseline reference values. -/
inductive InitEvent where
  | regPointSet (nm : String)
  | computeBaseline
deriving DecidableEq, Repr

/-- Writes `m[i] = w i` for each `i` in `range n`, starting from the constant
row `z`: the embedding of a python loop that writes row `i` of a
zero-initialized array at iteration `i`. -/
def buildRows {β : Type} (w : ℕ → β) (z : β) (n : ℕ) : ℕ → β :=
  (List.range n).foldl (fun m i => fun a => if a = i then w i else m a) (fun _ => z)

/-- Embedding of `l[::2]`, the even-indexed elements. -/
def evens {α : Type} : List α → List α
  | [] => []
  | [a] => [a]
  | a :: _ :: l => a :: evens l

/-- Embedding of `l[1::2]`, the odd-indexed elements. -/
def odds {α : Type} : List α → List α
  | [] => []
  | [_] => []
  | _ :: b :: l => b :: odds l

/-- Embedding of `np.cumsum` with an explicit addition (used at `ℚ` and at `GQ`). -/
def cumsumWith {α : Type} (addf : α → α → α) : List α → List α
  | [] => []
  | a :: l => a :: (cumsumWith addf l).map (addf a)

/-- State of a `ThicknessConstraint` object. -/
structure TCState where
  name : String
  nCon : ℕ
  coords : List Pt
  scaled : Bool
  D0 : List ℚ

/-- Embedding of `ThicknessConstraint.__init__`: stores `coords` and `scaled`, registers
one point set under `name`, then computes baseline lengths
`D0[i] = euclideanNorm(coords[2i] - coords[2i+1])`. -/
def ThicknessConstraint.init (gu : GU) (name : String) (coords : List Pt)
    (scaled : Bool) : TCState × List InitEvent :=
  let nCon := coords.length / 2
  let D0 := (List.range nCon).map fun i =>
    gu.eNorm ((coords.getD (2 * i) 0).sub (coords.getD (2 * i + 1) 0))
  (⟨name, nCon, coords, scaled, D0⟩,
   [.regPointSet name, .computeBaseline])

/-- State of a `ProjectedThicknessConstraint` object. -/
structure PTCState where
  name : String
  nCon : ℕ
  coords : List Pt
  scaled : Bool
  D0 : List ℚ
  dirVec : List Pt

/-- Embedding of `ProjectedThicknessConstraint.__init__`: registers one point set under
`name`, then computes baseline lengths and unit direction vectors. -/
def ProjectedThicknessConstraint.init (gu : GU) (name : String)
    (coords : List Pt) (scaled : Bool) : PTCState × List InitEvent :=
  let nCon := coords.length / 2
  let vec := fun i => (coords.getD (2 * i) 0).sub (coords.getD (2 * i + 1) 0)
  let D0 := (List.range nCon).map fun i => gu.eNorm (vec i)
  let dirVec := (List.range nCon).map fun i => (vec i).divQ (gu.eNorm (vec i))
  (⟨name, nCon, coords, scaled, D0, dirVec⟩,
   [.regPointSet name, .computeBaseline])

/-- State of a `ThicknessToChordConstraint` object. -/
structure T2CState where
  name : String
  nCon : ℕ
  coords : List Pt
  ToC0 : List ℚ

/-- Embedding of `ThicknessToChordConstraint.__init__`: registers one point set under
`name`, then computes the baseline thickness-to-chord ratios
`ToC0[i] = |coords[4i] - coords[4i+1]| / |coords[4i+2] - coords[4i+3]|`. -/
def ThicknessToChordConstraint.init (gu : GU) (name : String)
    (coords : List Pt) : T2CState × List InitEvent :=
  let nCon := coords.length / 4
  let ToC0 := (List.range nCon).map fun i =>
    gu.eDist (coords.getD (4 * i) 0) (coords.getD (4 * i + 1) 0) /
      gu.eDist (coords.getD (4 * i + 2) 0) (coords.getD (4 * i + 3) 0)
  (⟨name, nCon, coords, ToC0⟩, [.regPointSet name, .computeBaseline])

/-- State of a `KSMaxThicknessToChordConstraint` object. -/
structure KSState where
  name : String
  nPoint : ℕ
  coords : List Pt
  leTePts : List Pt
  scaled : Bool
  rho : ℚ
  ksApproach : String
  divideByChord : Bool
  ToC0 : List ℚ
  max0 : ℚ

/-- The baseline thickness-to-chord vector computed in
`KSMaxThicknessToChordConstraint.__init__`. -/
def KSMaxThicknessToChordConstraint.toc0 (gu : GU) (coords : List Pt)
    (lePt tePt : Pt) (divideByChord : Bool) (nPoint : ℕ) : List ℚ :=
  (List.range nPoint).map fun i =>
    let t := gu.eDist (coords.getD (2 * i) 0) (coords.getD (2 * i + 1) 0)
    let c := gu.eDist lePt tePt
    if divideByChord then t / c else t

/-- Embedding of `KSMaxThicknessToChordConstraint.__init__`: registers two point sets,
`name + "_coords"` and `name + "_lete"`, then computes the baseline `ToC0`
vector and its KS aggregate `max0`. -/
def KSMaxThicknessToChordConstraint.init (gu : GU) (name : String)
    (coords : List Pt) (lePt tePt : Pt) (rho : ℚ) (ksApproach : String)
    (divideByChord : Bool) (scaled : Bool) : KSState × List InitEvent :=
  let nPoint := coords.length / 2
  let ToC0 := KSMaxThicknessToChordConstraint.toc0 gu coords lePt tePt divideByChord nPoint
  let max0 := gu.KScompute ToC0 rho ksApproach
  (⟨name, nPoint, coords, [lePt, tePt], scaled, rho, ksApproach, divideByChord, ToC0, max0⟩,
   [.regPointSet (name ++ "_coords"), .regPointSet (name ++ "_lete"), .computeBaseline])

/-- Embedding of `TESlopeConstraint._compute` on real data: thicknesses of the
toothpicks divided by the cumulative chord arc length from the trailing
edge, optionally normalized by the baseline `teSlope0`. -/
def TESlopeConstraint.compute (gu : GU) (nCon : ℕ) (teSlope0 : List ℚ)
    (scaled : Bool) (coords : List Pt) : List ℚ :=
  let tCoords := coords.dropLast
  let top := evens tCoords
  let bottom := odds tCoords
  let dVec := List.zipWith Pt.sub top bottom
  let t := dVec.map gu.eNorm
  let xMid := (List.zipWith (fun b d => b.add (d.divQ 2)) bottom dVec).take nCon
      ++ [(coords.getLast?).getD 0]
  let cVec := List.zipWith Pt.sub xMid (xMid.drop 1)
  let chords := cVec.map gu.eNorm
  let c := (cumsumWith (· + ·) chords.reverse).reverse
  let teSlope := List.zipWith (· / ·) t c
  if scaled then List.zipWith (· / ·) teSlope teSlope0 else teSlope

/-- Embedding of `TESlopeConstraint._compute` on complex data (the path taken during
complex-step differentiation, with `np.sqrt` complex-safe). -/
def TESlopeConstraint.computeC (gu : GU) (nCon : ℕ) (teSlope0 : List ℚ)
    (scaled : Bool) (coords : List GPt) : List GQ :=
  let tCoords := coords.dropLast
  let top := evens tCoords
  let bottom := odds tCoords
  let dVec := List.zipWith GPt.sub top bottom
  let t := dVec.map gu.eNormC
  let xMid := (List.zipWith (fun b d => b.add (d.scaleQ (1 / 2))) bottom dVec).take nCon
      ++ [(coords.getLast?).getD 0]
  let cVec := List.zipWith GPt.sub xMid (xMid.drop 1)
  let chords := cVec.map gu.eNormC
  let c := (cumsumWith GQ.add chords.reverse).reverse
  let teSlope := List.zipWith GQ.div t c
  if scaled then List.zipWith (fun a b => a.div (GQ.ofQ b)) teSlope teSlope0 else teSlope

/-- State of a `TESlopeConstraint` object. -/
structure TESState where
  name : String
  nCon : ℕ
  coords : List Pt
  scaled : Bool
  teSlope0 : List ℚ

/-- Embedding of `TESlopeConstraint.__init__`: registers one point set under `name`,
then computes the baseline constraints with `_compute(coords, scaled=False)`. -/
def TESlopeConstraint.init (gu : GU) (name : String) (coords : List Pt)
    (scaled : Bool) : TESState × List InitEvent :=
  let nCon := (coords.length - 1) / 2
  let teSlope0 := TESlopeConstraint.compute gu nCon [] false coords
  (⟨name, nCon, coords, scaled, teSlope0⟩, [.regPointSet name, .computeBaseline])

/-- State of a `ProximityConstraint` object. -/
structure PROXState where
  name : String
  nCon : ℕ
  coordsA : List Pt
  coordsB : List Pt
  scaled : Bool
  D0 : List ℚ

/-- Embedding of `ProximityConstraint.__init__`: registers two point sets,
`name + "_A"` and `name + "_B"`, then computes baseline distances
`D0[i] = euclideanNorm(coordsA[i] - coordsB[i])`. -/
def ProximityConstraint.init (gu : GU) (name : String)
    (coordsA coordsB : List Pt) (scaled : Bool) : PROXState × List InitEvent :=
  let nCon := coordsA.length
  let D0 := (List.range nCon).map fun i =>
    gu.eNorm ((coordsA.getD i 0).sub (coordsB.getD i 0))
  (⟨name, nCon, coordsA, coordsB, scaled, D0⟩,
   [.regPointSet (name ++ "_A"), .regPointSet (name ++ "_B"), .computeBaseline])

/-- The `funcs` dictionary for vector-valued constraints. -/
abbrev Funcs := List (String × List ℚ)

/-- The `funcs` dictionary for the scalar-valued KS-max constraint. -/
abbrev FuncsS := List (String × ℚ)

/-- The array `D` built by `ThicknessConstraint.evalFunctions`:
`D[i] = euclideanNorm(coords[2i] - coords[2i+1])`, divided by `D0[i]`
when `scaled`, with `coords` freshly pulled from `DVGeo.update`. -/
def ThicknessConstraint.Dvals (gu : GU) (g : DVGeo) (s : TCState) : List ℚ :=
  let coords := g.update s.name
  (List.range s.nCon).map fun i =>
    let d := gu.eNorm ((coords.getD (2 * i) 0).sub (coords.getD (2 * i + 1) 0))
    if s.scaled then d / s.D0.getD i 0 else d

/-- Embedding of `ThicknessConstraint.evalFunctions`: refresh `self.coords` from
`DVGeo.update` and store the distance array under `funcs[name]`. -/
def ThicknessConstraint.evalFunctions (gu : GU) (g : DVGeo) (s : TCState)
    (funcs : Funcs) : TCState × Funcs :=
  ({ s with coords := g.update s.name },
   (s.name, ThicknessConstraint.Dvals gu g s) :: funcs)

/-- The array `D` built by `ProjectedThicknessConstraint.evalFunctions`:
the dot product of the current toothpick vector with the baseline unit
direction, divided by `D0[i]` when `scaled`. -/
def ProjectedThicknessConstraint.Dvals (g : DVGeo) (s : PTCState) : List ℚ :=
  let coords := g.update s.name
  (List.range s.nCon).map fun i =>
    let vec := (coords.getD (2 * i) 0).sub (coords.getD (2 * i + 1) 0)
    let dv := s.dirVec.getD i 0
    let d := vec.x * dv.x + vec.y * dv.y + vec.z * dv.z
    if s.scaled then d / s.D0.getD i 0 else d

/-- Embedding of `ProjectedThicknessConstraint.evalFunctions`. -/
def ProjectedThicknessConstraint.evalFunctions (g : DVGeo) (s : PTCState)
    (funcs : Funcs) : PTCState × Funcs :=
  ({ s with coords := g.update s.name },
   (s.name, ProjectedThicknessConstraint.Dvals g s) :: funcs)

/-- The array `ToC` built by `ThicknessToChordConstraint.evalFunctions`:
`ToC[i] = (t_i / c_i) / ToC0[i]`, always normalized by the baseline. -/
def ThicknessToChordConstraint.ToCvals (gu : GU) (g : DVGeo) (s : T2CState) : List ℚ :=
  let coords := g.update s.name
  (List.range s.nCon).map fun i =>
    let t := gu.eDist (coords.getD (4 * i) 0) (coords.getD (4 * i + 1) 0)
    let c := gu.eDist (coords.getD (4 * i + 2) 0) (coords.getD (4 * i + 3) 0)
    (t / c) / s.ToC0.getD i 0

/-- Embedding of `ThicknessToChordConstraint.evalFunctions`. -/
def ThicknessToChordConstraint.evalFunctions (gu : GU) (g : DVGeo) (s : T2CState)
    (funcs : Funcs) : T2CState × Funcs :=
  ({ s with coords := g.update s.name },
   (s.name, ThicknessToChordConstraint.ToCvals gu g s) :: funcs)

/-- The array `ToC` built by `KSMaxThicknessToChordConstraint.evalFunctions`:
`ToC[i] = t_i / c` (or `t_i` when `divideByChord` is off), with both point
sets freshly pulled from `DVGeo.update`. -/
def KSMaxThicknessToChordConstraint.ToCvals (gu : GU) (g : DVGeo) (s : KSState) : List ℚ :=
  let coords := g.update (s.name ++ "_coords")
  let leTe := g.update (s.name ++ "_lete")
  (List.range s.nPoint).map fun i =>
    let t := gu.eDist (coords.getD (2 * i) 0) (coords.getD (2 * i + 1) 0)
    let c := gu.eDist (leTe.getD 0 0) (leTe.getD 1 0)
    if s.divideByChord then t / c else t

/-- The scalar stored by `KSMaxThicknessToChordConstraint.evalFunctions`:
the KS aggregate of `ToC`, divided by the baseline `max0` when `scaled`. -/
def KSMaxThicknessToChordConstraint.maxToC (gu : GU) (g : DVGeo) (s : KSState) : ℚ :=
  let v := gu.KScompute (KSMaxThicknessToChordConstraint.ToCvals gu g s) s.rho s.ksApproach
  if s.scaled then v / s.max0 else v

/-- Embedding of `KSMaxThicknessToChordConstraint.evalFunctions`. -/
def KSMaxThicknessToChordConstraint.evalFunctions (gu : GU) (g : DVGeo)
    (s : KSState) (funcs : FuncsS) : KSState × FuncsS :=
  ({ s with coords := g.update (s.name ++ "_coords"),
            leTePts := g.update (s.name ++ "_lete") },
   (s.name, KSMaxThicknessToChordConstraint.maxToC gu g s) :: funcs)

/-- Embedding of `TESlopeConstraint.evalFunctions`. -/
def TESlopeConstraint.evalFunctions (gu : GU) (g : DVGeo) (s : TESState)
    (funcs : Funcs) : TESState × Funcs :=
  let coords := g.update s.name
  ({ s with coords := coords },
   (s.name, TESlopeConstraint.compute gu s.nCon s.teSlope0 s.scaled coords) :: funcs)

/-- The array `D` built by `ProximityConstraint.evalFunctions`:
`D[i] = euclideanNorm(coordsA[i] - coordsB[i])`, divided by `D0[i]` when
`scaled`, with both point sets freshly pulled from `DVGeo.update`. -/
def ProximityConstraint.Dvals (gu : GU) (g : DVGeo) (s : PROXState) : List ℚ :=
  let cA := g.update (s.name ++ "_A")
  let cB := g.update (s.name ++ "_B")
  (List.range s.nCon).map fun i =>
    let d := gu.eNorm ((cA.getD i 0).sub (cB.getD i 0))
    if s.scaled then d / s.D0.getD i 0 else d

/-- Embedding of `ProximityConstraint.evalFunctions`. -/
def ProximityConstraint.evalFunctions (gu : GU) (g : DVGeo) (s : PROXState)
    (funcs : Funcs) : PROXState × Funcs :=
  ({ s with coordsA := g.update (s.name ++ "_A"),
            coordsB := g.update (s.name ++ "_B") },
   (s.name, ProximityConstraint.Dvals gu g s) :: funcs)

/-- Complex negation. -/
def GQ.neg (a : GQ) : GQ := ⟨-a.re, -a.im⟩

/-- The Jacobian `dTdPt` built by `ThicknessConstraint.evalFunctionsSens`:
row `i` holds the `eDist_b` reverse seeds at points `2i` and `2i+1`,
divided by `D0[i]` when `scaled`, and zeros elsewhere. -/
def ThicknessConstraint.dTdPt (gu : GU) (s : TCState) : Jac :=
  buildRows (fun i =>
    let pb := gu.eDistB (s.coords.getD (2 * i) 0) (s.coords.getD (2 * i + 1) 0)
    let p1b := if s.scaled then pb.1.divQ (s.D0.getD i 0) else pb.1
    let p2b := if s.scaled then pb.2.divQ (s.D0.getD i 0) else pb.2
    fun b cI => if b = 2 * i then p1b.c cI else if b = 2 * i + 1 then p2b.c cI else 0)
    (fun _ _ => 0) s.nCon

/-- Embedding of `ThicknessConstraint.evalFunctionsSens`: when `getNDV() > 0`, pass the
Jacobian to `DVGeo.totalSensitivity` and store the result; the second
component logs the point-set names passed to `totalSensitivity`. -/
def ThicknessConstraint.evalFunctionsSens (gu : GU) (g : DVGeo) (s : TCState)
    (fs : FuncsSens) : FuncsSens × List String :=
  if 0 < g.ndv then
    ((s.name, g.totalSensitivity (ThicknessConstraint.dTdPt gu s) s.name) :: fs, [s.name])
  else (fs, [])

/-- The Jacobian built by `ProjectedThicknessConstraint.evalFunctionsSens`:
row `i` holds `±dir_vec[i] * D_b` at points `2i` and `2i+1`. -/
def ProjectedThicknessConstraint.dTdPt (s : PTCState) : Jac :=
  buildRows (fun i =>
    let db : ℚ := if s.scaled then 1 / s.D0.getD i 0 else 1
    let vecb := Pt.scaleQ db (s.dirVec.getD i 0)
    fun b cI => if b = 2 * i then vecb.c cI else if b = 2 * i + 1 then vecb.neg.c cI else 0)
    (fun _ _ => 0) s.nCon

/-- Embedding of `ProjectedThicknessConstraint.evalFunctionsSens`. -/
def ProjectedThicknessConstraint.evalFunctionsSens (g : DVGeo) (s : PTCState)
    (fs : FuncsSens) : FuncsSens × List String :=
  if 0 < g.ndv then
    ((s.name, g.totalSensitivity (ProjectedThicknessConstraint.dTdPt s) s.name) :: fs, [s.name])
  else (fs, [])

/-- The Jacobian built by `ThicknessToChordConstraint.evalFunctionsSens`:
row `i` holds the thickness seeds over `c` and the chord seeds scaled by
`-t/c²`, all divided by `ToC0[i]`, at points `4i .. 4i+3`. -/
def ThicknessToChordConstraint.dToCdPt (gu : GU) (s : T2CState) : Jac :=
  buildRows (fun i =>
    let t := gu.eDist (s.coords.getD (4 * i) 0) (s.coords.getD (4 * i + 1) 0)
    let c := gu.eDist (s.coords.getD (4 * i + 2) 0) (s.coords.getD (4 * i + 3) 0)
    let pb12 := gu.eDistB (s.coords.getD (4 * i) 0) (s.coords.getD (4 * i + 1) 0)
    let pb34 := gu.eDistB (s.coords.getD (4 * i + 2) 0) (s.coords.getD (4 * i + 3) 0)
    fun b cI =>
      if b = 4 * i then ((pb12.1.divQ c).divQ (s.ToC0.getD i 0)).c cI
      else if b = 4 * i + 1 then ((pb12.2.divQ c).divQ (s.ToC0.getD i 0)).c cI
      else if b = 4 * i + 2 then ((pb34.1.neg.scaleQ (t / c ^ 2)).divQ (s.ToC0.getD i 0)).c cI
      else if b = 4 * i + 3 then ((pb34.2.neg.scaleQ (t / c ^ 2)).divQ (s.ToC0.getD i 0)).c cI
      else 0)
    (fun _ _ => 0) s.nCon

/-- Embedding of `ThicknessToChordConstraint.evalFunctionsSens`. -/
def ThicknessToChordConstraint.evalFunctionsSens (gu : GU) (g : DVGeo) (s : T2CState)
    (fs : FuncsSens) : FuncsSens × List String :=
  if 0 < g.ndv then
    ((s.name, g.totalSensitivity (ThicknessToChordConstraint.dToCdPt gu s) s.name) :: fs, [s.name])
  else (fs, [])

/-- The `ToC` vector recomputed inside
`KSMaxThicknessToChordConstraint.evalFunctionsSens` from the stored
coordinates. -/
def KSMaxThicknessToChordConstraint.ToCcur (gu : GU) (s : KSState) : List ℚ :=
  (List.range s.nPoint).map fun i =>
    let t := gu.eDist (s.coords.getD (2 * i) 0) (s.coords.getD (2 * i + 1) 0)
    let c := gu.eDist (s.leTePts.getD 0 0) (s.leTePts.getD 1 0)
    if s.divideByChord then t / c else t

/-- The array `dToCdCoords`: for toothpick `i`, the partials of `ToC[i]` with respect
to its two endpoints (`eDist_b` seeds, over `c` when `divideByChord`). -/
def KSMaxThicknessToChordConstraint.dToCdCoords (gu : GU) (s : KSState) : ℕ → ℕ → Pt :=
  buildRows (fun i =>
    let c := gu.eDist (s.leTePts.getD 0 0) (s.leTePts.getD 1 0)
    let pb := gu.eDistB (s.coords.getD (2 * i) 0) (s.coords.getD (2 * i + 1) 0)
    fun j =>
      if j = 0 then (if s.divideByChord then pb.1.divQ c else pb.1)
      else if j = 1 then (if s.divideByChord then pb.2.divQ c else pb.2)
      else 0)
    0 s.nPoint

/-- The array `dToCdLeTePts`: for toothpick `i`, the partials of `ToC[i]` with
respect to the LE/TE points (written only when `divideByChord`, zeros
otherwise). -/
def KSMaxThicknessToChordConstraint.dToCdLeTePts (gu : GU) (s : KSState) : ℕ → ℕ → Pt :=
  buildRows (fun i =>
    let t := gu.eDist (s.coords.getD (2 * i) 0) (s.coords.getD (2 * i + 1) 0)
    let c := gu.eDist (s.leTePts.getD 0 0) (s.leTePts.getD 1 0)
    let pb := gu.eDistB (s.leTePts.getD 0 0) (s.leTePts.getD 1 0)
    fun j =>
      if s.divideByChord then
        (if j = 0 then pb.1.neg.scaleQ (t / c ^ 2)
         else if j = 1 then pb.2.neg.scaleQ (t / c ^ 2)
         else 0)
      else 0)
    0 s.nPoint

/-- The vector `dKSdToC`: the KS derivative seeds, divided by `max0` when `scaled`. -/
def KSMaxThicknessToChordConstraint.dKSdToC (gu : GU) (s : KSState) : List ℚ :=
  let raw := gu.KSderivs (KSMaxThicknessToChordConstraint.ToCcur gu s) s.rho s.ksApproach
  if s.scaled then raw.map (· / s.max0) else raw

/-- The array `dKSdCoords`: the einsum `"i,ijk->ijk"` followed by the reshape to
`(2 nPoint, 3)`: row `2i + j` is `dKSdToC[i] * dToCdCoords[i, j]`. -/
def KSMaxThicknessToChordConstraint.dKSdCoords (gu : GU) (s : KSState) : JacV :=
  fun a b =>
    (KSMaxThicknessToChordConstraint.dKSdToC gu s).getD (a / 2) 0 *
      (KSMaxThicknessToChordConstraint.dToCdCoords gu s (a / 2) (a % 2)).c b

/-- The array `dKSdLeTePts`: the einsum `"i,ijk->jk"`, summing
`dKSdToC[i] * dToCdLeTePts[i, j, k]` over the toothpicks. -/
def KSMaxThicknessToChordConstraint.dKSdLeTePts (gu : GU) (s : KSState) : JacV :=
  fun j b =>
    ((List.range s.nPoint).map fun i =>
      (KSMaxThicknessToChordConstraint.dKSdToC gu s).getD i 0 *
        (KSMaxThicknessToChordConstraint.dToCdLeTePts gu s i j).c b).sum

/-- Embedding of `KSMaxThicknessToChordConstraint.evalFunctionsSens`: the two point-set
sensitivities are combined by iterating over the keys of `tmp0` only
(`tmpTotal[key] = tmp0[key] + tmp1[key]`; a key of `tmp0` absent from
`tmp1` would raise `KeyError` in python — the `getD 0` below is only for
totality on that path). -/
def KSMaxThicknessToChordConstraint.evalFunctionsSens (gu : GU) (g : DVGeo)
    (s : KSState) (fs : FuncsSens) : FuncsSens × List String :=
  if 0 < g.ndv then
    let tmp0 := g.totalSensitivityV (KSMaxThicknessToChordConstraint.dKSdCoords gu s)
      (s.name ++ "_coords")
    let tmp1 := g.totalSensitivityV (KSMaxThicknessToChordConstraint.dKSdLeTePts gu s)
      (s.name ++ "_lete")
    let tmpTotal := tmp0.map fun kv => (kv.1, kv.2 + (tmp1.lookup kv.1).getD 0)
    ((s.name, tmpTotal) :: fs, [s.name ++ "_coords", s.name ++ "_lete"])
  else (fs, [])

/-- The real step `1e-40` of the complex-step differentiation. -/
def stepReal : ℚ := 1 / 10 ^ 40

/-- The imaginary step `1e-40j`. -/
def stepImag : GQ := ⟨0, stepReal⟩

/-- In-place update of list element `i` (`coords[i] = f coords[i]`). -/
def updAt {α : Type} : List α → ℕ → (α → α) → List α
  | [], _, _ => []
  | a :: l, 0, f => f a :: l
  | a :: l, Nat.succ i, f => a :: updAt l i f

/-- One iteration of the complex-step loop in
`TESlopeConstraint.evalFunctionsSens`: perturb entry `(i, j)`, evaluate
`_compute`, write column `(i, j)` of the Jacobian from the imaginary
parts, then remove the perturbation. -/
def TESlopeConstraint.sensStep (gu : GU) (s : TESState)
    (st : List GPt × Jac) (ij : ℕ × ℕ) : List GPt × Jac :=
  let c1 := updAt st.1 ij.1 (GPt.pert ij.2 stepImag)
  let conVal := TESlopeConstraint.computeC gu s.nCon s.teSlope0 s.scaled c1
  let mat' : Jac := fun k a b =>
    if a = ij.1 ∧ b = ij.2 then (conVal.getD k 0).im / stepReal else st.2 k a b
  (updAt c1 ij.1 (GPt.pert ij.2 stepImag.neg), mat')

/-- The `(i, j)` pairs visited by the nested loops, in program order. -/
def TESlopeConstraint.loopPairs (s : TESState) : List (ℕ × ℕ) :=
  ((List.range s.coords.length).map fun i => (List.range 3).map fun j => (i, j)).flatten

/-- The Jacobian `dTeSlopePt` produced by the complex-step loop. -/
def TESlopeConstraint.dTeSlopePt (gu : GU) (s : TESState) : Jac :=
  ((TESlopeConstraint.loopPairs s).foldl (TESlopeConstraint.sensStep gu s)
    (s.coords.map Pt.toGQ, fun _ _ _ => 0)).2

/-- Embedding of `TESlopeConstraint.evalFunctionsSens`. -/
def TESlopeConstraint.evalFunctionsSens (gu : GU) (g : DVGeo) (s : TESState)
    (fs : FuncsSens) : FuncsSens × List String :=
  if 0 < g.ndv then
    ((s.name, g.totalSensitivity (TESlopeConstraint.dTeSlopePt gu s) s.name) :: fs, [s.name])
  else (fs, [])

/-- The Jacobian `dTdPtA` built by `ProximityConstraint.evalFunctionsSens`:
row `i` holds the `eDist_b` seed for `coordsA[i]` at column `i`. -/
def ProximityConstraint.dTdPtA (gu : GU) (s : PROXState) : Jac :=
  buildRows (fun i =>
    let pb := gu.eDistB (s.coordsA.getD i 0) (s.coordsB.getD i 0)
    let pAb := if s.scaled then pb.1.divQ (s.D0.getD i 0) else pb.1
    fun b cI => if b = i then pAb.c cI else 0)
    (fun _ _ => 0) s.nCon

/-- The Jacobian `dTdPtB`: row `i` holds the `eDist_b` seed for
`coordsB[i]` at column `i`. -/
def ProximityConstraint.dTdPtB (gu : GU) (s : PROXState) : Jac :=
  buildRows (fun i =>
    let pb := gu.eDistB (s.coordsA.getD i 0) (s.coordsB.getD i 0)
    let pBb := if s.scaled then pb.2.divQ (s.D0.getD i 0) else pb.2
    fun b cI => if b = i then pBb.c cI else 0)
    (fun _ _ => 0) s.nCon

/-- Python dict assignment `d[k] = v`. -/
def dictSet (d : SensDict) (k : String) (v : ℚ) : SensDict :=
  if (d.lookup k).isSome then d.map (fun kv => if kv.1 = k then (k, v) else kv)
  else d ++ [(k, v)]

/-- One step of the second merge loop in
`ProximityConstraint.evalFunctionsSens`: `d[k] += v` when the key is
present, `d[k] = v` otherwise. -/
def dictAddInto (d : SensDict) (kv : String × ℚ) : SensDict :=
  if (d.lookup kv.1).isSome then d.map (fun p => if p.1 = kv.1 then (p.1, p.2 + kv.2) else p)
  else d ++ [kv]

/-- The merge of the two point-set sensitivities in
`ProximityConstraint.evalFunctionsSens`: all entries of `funcSensA` are
assigned, then every entry of `funcSensB` is added into or inserted. -/
def ProximityConstraint.combine (a b : SensDict) : SensDict :=
  b.foldl dictAddInto (a.foldl (fun d kv => dictSet d kv.1 kv.2) [])

/-- Embedding of `ProximityConstraint.evalFunctionsSens`. -/
def ProximityConstraint.evalFunctionsSens (gu : GU) (g : DVGeo) (s : PROXState)
    (fs : FuncsSens) : FuncsSens × List String :=
  if 0 < g.ndv then
    let fA := g.totalSensitivity (ProximityConstraint.dTdPtA gu s) (s.name ++ "_A")
    let fB := g.totalSensitivity (ProximityConstraint.dTdPtB gu s) (s.name ++ "_B")
    ((s.name, ProximityConstraint.combine fA fB) :: fs, [s.name ++ "_A", s.name ++ "_B"])
  else (fs, [])

/-- The header lines of a FELINESEG Tecplot zone. -/
def zoneHeader (name : String) (nodes elems : ℕ) : List String :=
  ["Zone T=" ++ name ++ "\n",
   "Nodes = " ++ toString nodes ++ ", Elements = " ++ toString elems ++ " ZONETYPE=FELINESEG\n",
   "DATAPACKING=POINT\n"]

/-- One formatted coordinate line (`"%f %f %f\n"`), with the float
formatting abstracted as `fmt`. -/
def ptLine (fmt : ℚ → String) (p : Pt) : String :=
  fmt p.x ++ " " ++ fmt p.y ++ " " ++ fmt p.z ++ "\n"

/-- One finite-element segment line (`"%d %d\n"`). -/
def segLine (a b : ℕ) : String := toString a ++ " " ++ toString b ++ "\n"

/-- The text written by `ThicknessConstraint.writeTecplot`. -/
def ThicknessConstraint.tecplotLines (fmt : ℚ → String) (s : TCState) : List String :=
  zoneHeader s.name s.coords.length (s.coords.length / 2)
    ++ ((List.range s.coords.length).map fun i => ptLine fmt (s.coords.getD i 0))
    ++ ((List.range (s.coords.length / 2)).map fun i => segLine (2 * i + 1) (2 * i + 2))

/-- Embedding of `ThicknessConstraint.writeTecplot`: appends formatted text to the
handle; the constraint state is not touched. -/
def ThicknessConstraint.writeTecplot (fmt : ℚ → String) (s : TCState)
    (handle : List String) : TCState × List String :=
  (s, handle ++ ThicknessConstraint.tecplotLines fmt s)

/-- The text written by `ProjectedThicknessConstraint.writeTecplot`:
the toothpick zone followed by a `_ref_directions` zone. -/
def ProjectedThicknessConstraint.tecplotLines (fmt : ℚ → String) (s : PTCState) : List String :=
  zoneHeader s.name s.coords.length (s.coords.length / 2)
    ++ ((List.range s.coords.length).map fun i => ptLine fmt (s.coords.getD i 0))
    ++ ((List.range (s.coords.length / 2)).map fun i => segLine (2 * i + 1) (2 * i + 2))
    ++ zoneHeader (s.name ++ "_ref_directions") (s.dirVec.length * 2) s.dirVec.length
    ++ (((List.range s.nCon).map fun i =>
          let pt1 := s.coords.getD (i * 2 + 1) 0
          let pt2 := pt1.add (s.dirVec.getD i 0)
          [ptLine fmt pt1, ptLine fmt pt2]).flatten)
    ++ ((List.range s.nCon).map fun i => segLine (2 * i + 1) (2 * i + 2))

/-- Embedding of `ProjectedThicknessConstraint.writeTecplot`. -/
def ProjectedThicknessConstraint.writeTecplot (fmt : ℚ → String) (s : PTCState)
    (handle : List String) : PTCState × List String :=
  (s, handle ++ ProjectedThicknessConstraint.tecplotLines fmt s)

/-- The text written by `ThicknessToChordConstraint.writeTecplot`. -/
def ThicknessToChordConstraint.tecplotLines (fmt : ℚ → String) (s : T2CState) : List String :=
  zoneHeader s.name s.coords.length (s.coords.length / 2)
    ++ ((List.range s.coords.length).map fun i => ptLine fmt (s.coords.getD i 0))
    ++ ((List.range (s.coords.length / 2)).map fun i => segLine (2 * i + 1) (2 * i + 2))

/-- Embedding of `ThicknessToChordConstraint.writeTecplot`. -/
def ThicknessToChordConstraint.writeTecplot (fmt : ℚ → String) (s : T2CState)
    (handle : List String) : T2CState × List String :=
  (s, handle ++ ThicknessToChordConstraint.tecplotLines fmt s)

/-- The text written by `KSMaxThicknessToChordConstraint.writeTecplot`:
the toothpicks, the LE/TE chord points, and their segments. -/
def KSMaxThicknessToChordConstraint.tecplotLines (fmt : ℚ → String) (s : KSState) : List String :=
  zoneHeader s.name (s.coords.length + 2) (s.coords.length / 2 + 1)
    ++ ((List.range s.coords.length).map fun i => ptLine fmt (s.coords.getD i 0))
    ++ [ptLine fmt (s.leTePts.getD 0 0), ptLine fmt (s.leTePts.getD 1 0)]
    ++ ((List.range (s.coords.length / 2)).map fun i => segLine (2 * i + 1) (2 * i + 2))
    ++ [segLine (s.coords.length + 1) (s.coords.length + 2)]

/-- Embedding of `KSMaxThicknessToChordConstraint.writeTecplot`. -/
def KSMaxThicknessToChordConstraint.writeTecplot (fmt : ℚ → String) (s : KSState)
    (handle : List String) : KSState × List String :=
  (s, handle ++ KSMaxThicknessToChordConstraint.tecplotLines fmt s)

/-- The text written by `TESlopeConstraint.writeTecplot` (the trailing-edge
point, last in `coords`, is not plotted). -/
def TESlopeConstraint.tecplotLines (fmt : ℚ → String) (s : TESState) : List String :=
  zoneHeader s.name (s.coords.length - 1) ((s.coords.length - 1) / 2)
    ++ ((List.range (s.coords.length - 1)).map fun i => ptLine fmt (s.coords.getD i 0))
    ++ ((List.range ((s.coords.length - 1) / 2)).map fun i => segLine (2 * i + 1) (2 * i + 2))

/-- Embedding of `TESlopeConstraint.writeTecplot`. -/
def TESlopeConstraint.writeTecplot (fmt : ℚ → String) (s : TESState)
    (handle : List String) : TESState × List String :=
  (s, handle ++ TESlopeConstraint.tecplotLines fmt s)

/-- The text written by `ProximityConstraint.writeTecplot`: the A and B
points interleaved, then one segment per pair. -/
def ProximityConstraint.tecplotLines (fmt : ℚ → String) (s : PROXState) : List String :=
  zoneHeader s.name (s.coordsA.length * 2) s.coordsA.length
    ++ (((List.range s.coordsA.length).map fun i =>
          [ptLine fmt (s.coordsA.getD i 0), ptLine fmt (s.coordsB.getD i 0)]).flatten)
    ++ ((List.range s.coordsA.length).map fun i => segLine (2 * i + 1) (2 * i + 2))

/-- Embedding of `ProximityConstraint.writeTecplot`. -/
def ProximityConstraint.writeTecplot (fmt : ℚ → String) (s : PROXState)
    (handle : List String) : PROXState × List String :=
  (s, handle ++ ProximityConstraint.tecplotLines fmt s)

/-- What claim C1 asserts of `ThicknessConstraint.evalFunctions` at
toothpick `i`: the stored array has length `nCon` and entry `i` is the
distance between the updated points `2i` and `2i+1`, divided by `D0[i]`
when `scaled`. -/
def ThicknessEvalSpec (gu : GU) (g : DVGeo) (s : TCState) (funcs : Funcs) (i : ℕ) : Prop :=
  (ThicknessConstraint.evalFunctions gu g s funcs).2
      = (s.name, ThicknessConstraint.Dvals gu g s) :: funcs
  ∧ (ThicknessConstraint.Dvals gu g s).length = s.nCon
  ∧ (ThicknessConstraint.Dvals gu g s).getD i 0 =
      (if s.scaled then
         gu.eDist ((g.update s.name).getD (2 * i) 0) ((g.update s.name).getD (2 * i + 1) 0)
           / s.D0.getD i 0
       else
         gu.eDist ((g.update s.name).getD (2 * i) 0) ((g.update s.name).getD (2 * i + 1) 0))

/-- What claim C1 asserts of `ProximityConstraint.evalFunctions` at pair
`i`: entry `i` is the distance between `coordsA[i]` and `coordsB[i]` from
the two updated point sets, divided by `D0[i]` when `scaled`. -/
def ProximityEvalSpec (gu : GU) (g : DVGeo) (s : PROXState) (funcs : Funcs) (i : ℕ) : Prop :=
  (ProximityConstraint.evalFunctions gu g s funcs).2
      = (s.name, ProximityConstraint.Dvals gu g s) :: funcs
  ∧ (ProximityConstraint.Dvals gu g s).length = s.nCon
  ∧ (ProximityConstraint.Dvals gu g s).getD i 0 =
      (if s.scaled then
         gu.eDist ((g.update (s.name ++ "_A")).getD i 0) ((g.update (s.name ++ "_B")).getD i 0)
           / s.D0.getD i 0
       else
         gu.eDist ((g.update (s.name ++ "_A")).getD i 0) ((g.update (s.name ++ "_B")).getD i 0))

/-- What claim C2 asserts of `KSMaxThicknessToChordConstraint.evalFunctions`:
one scalar is stored — the KS aggregate of the `ToC` vector, divided by
`max0` when `scaled` — and `ToC[i]` is `t_i / c` (or `t_i`). -/
def KSMaxEvalSpec (gu : GU) (g : DVGeo) (s : KSState) (funcs : FuncsS) (i : ℕ) : Prop :=
  (KSMaxThicknessToChordConstraint.evalFunctions gu g s funcs).2
      = (s.name, KSMaxThicknessToChordConstraint.maxToC gu g s) :: funcs
  ∧ KSMaxThicknessToChordConstraint.maxToC gu g s =
      (if s.scaled then
         gu.KScompute (KSMaxThicknessToChordConstraint.ToCvals gu g s) s.rho s.ksApproach / s.max0
       else
         gu.KScompute (KSMaxThicknessToChordConstraint.ToCvals gu g s) s.rho s.ksApproach)
  ∧ (KSMaxThicknessToChordConstraint.ToCvals gu g s).length = s.nPoint
  ∧ (KSMaxThicknessToChordConstraint.ToCvals gu g s).getD i 0 =
      (if s.divideByChord then
         gu.eDist ((g.update (s.name ++ "_coords")).getD (2 * i) 0)
             ((g.update (s.name ++ "_coords")).getD (2 * i + 1) 0)
           / gu.eDist ((g.update (s.name ++ "_lete")).getD 0 0)
               ((g.update (s.name ++ "_lete")).getD 1 0)
       else
         gu.eDist ((g.update (s.name ++ "_coords")).getD (2 * i) 0)
             ((g.update (s.name ++ "_coords")).getD (2 * i + 1) 0))

/-- What claim C3 asserts of the KS chain-rule seeds at toothpick `i` and
coordinate `k`: writing `dKS` for the KS derivative seeds (divided by
`max0` when `scaled`), the seeds for the toothpick endpoints are
`dKS[i] * (eDist_b seed / c)` and the LE/TE seeds are
`Σ_i dKS[i] * (-eDist_b seed * t_i / c²)` (zero rows without
`divideByChord`). -/
def KSMaxSensSeedSpec (gu : GU) (s : KSState) (i k : ℕ) : Prop :=
  KSMaxThicknessToChordConstraint.dKSdCoords gu s (2 * i) k
      = (gu.KSderivs (KSMaxThicknessToChordConstraint.ToCcur gu s) s.rho s.ksApproach).getD i 0
          / (if s.scaled then s.max0 else 1)
        * (if s.divideByChord then
             ((gu.eDistB (s.coords.getD (2 * i) 0) (s.coords.getD (2 * i + 1) 0)).1.divQ
               (gu.eDist (s.leTePts.getD 0 0) (s.leTePts.getD 1 0))).c k
           else (gu.eDistB (s.coords.getD (2 * i) 0) (s.coords.getD (2 * i + 1) 0)).1.c k)
  ∧ KSMaxThicknessToChordConstraint.dKSdCoords gu s (2 * i + 1) k
      = (gu.KSderivs (KSMaxThicknessToChordConstraint.ToCcur gu s) s.rho s.ksApproach).getD i 0
          / (if s.scaled then s.max0 else 1)
        * (if s.divideByChord then
             ((gu.eDistB (s.coords.getD (2 * i) 0) (s.coords.getD (2 * i + 1) 0)).2.divQ
               (gu.eDist (s.leTePts.getD 0 0) (s.leTePts.getD 1 0))).c k
           else (gu.eDistB (s.coords.getD (2 * i) 0) (s.coords.getD (2 * i + 1) 0)).2.c k)
  ∧ KSMaxThicknessToChordConstraint.dKSdLeTePts gu s 0 k
      = (if s.divideByChord then
           ((List.range s.nPoint).map fun i2 =>
             (gu.KSderivs (KSMaxThicknessToChordConstraint.ToCcur gu s) s.rho s.ksApproach).getD i2 0
               / (if s.scaled then s.max0 else 1)
             * (((gu.eDistB (s.leTePts.getD 0 0) (s.leTePts.getD 1 0)).1.neg.scaleQ
                  (gu.eDist (s.coords.getD (2 * i2) 0) (s.coords.getD (2 * i2 + 1) 0)
                    / gu.eDist (s.leTePts.getD 0 0) (s.leTePts.getD 1 0) ^ 2)).c k)).sum
         else 0)
  ∧ KSMaxThicknessToChordConstraint.dKSdLeTePts gu s 1 k
      = (if s.divideByChord then
           ((List.range s.nPoint).map fun i2 =>
             (gu.KSderivs (KSMaxThicknessToChordConstraint.ToCcur gu s) s.rho s.ksApproach).getD i2 0
               / (if s.scaled then s.max0 else 1)
             * (((gu.eDistB (s.leTePts.getD 0 0) (s.leTePts.getD 1 0)).2.neg.scaleQ
                  (gu.eDist (s.coords.getD (2 * i2) 0) (s.coords.getD (2 * i2 + 1) 0)
                    / gu.eDist (s.leTePts.getD 0 0) (s.leTePts.getD 1 0) ^ 2)).c k)).sum
         else 0)

/-- What claim C6 asserts of `ThicknessConstraint.evalFunctionsSens`: the
Jacobian goes to `totalSensitivity` for the registered point set, and row
`i` holds the (possibly `D0`-scaled) `eDist_b` seeds at points `2i`,
`2i+1` and zeros elsewhere. -/
def ThicknessSensSpec (gu : GU) (g : DVGeo) (s : TCState) (fs : FuncsSens) (i : ℕ) : Prop :=
  ThicknessConstraint.evalFunctionsSens gu g s fs
      = ((s.name, g.totalSensitivity (ThicknessConstraint.dTdPt gu s) s.name) :: fs, [s.name])
  ∧ ∀ b cI, ThicknessConstraint.dTdPt gu s i b cI =
      (if b = 2 * i then
         (if s.scaled then
            (gu.eDistB (s.coords.getD (2 * i) 0) (s.coords.getD (2 * i + 1) 0)).1.divQ (s.D0.getD i 0)
          else (gu.eDistB (s.coords.getD (2 * i) 0) (s.coords.getD (2 * i + 1) 0)).1).c cI
       else if b = 2 * i + 1 then
         (if s.scaled then
            (gu.eDistB (s.coords.getD (2 * i) 0) (s.coords.getD (2 * i + 1) 0)).2.divQ (s.D0.getD i 0)
          else (gu.eDistB (s.coords.getD (2 * i) 0) (s.coords.getD (2 * i + 1) 0)).2).c cI
       else 0)

/-- What claim C6 asserts of `ProjectedThicknessConstraint.evalFunctionsSens`. -/
def ProjectedSensSpec (g : DVGeo) (s : PTCState) (fs : FuncsSens) (i : ℕ) : Prop :=
  ProjectedThicknessConstraint.evalFunctionsSens g s fs
      = ((s.name, g.totalSensitivity (ProjectedThicknessConstraint.dTdPt s) s.name) :: fs, [s.name])
  ∧ ∀ b cI, ProjectedThicknessConstraint.dTdPt s i b cI =
      (if b = 2 * i then
         (Pt.scaleQ (if s.scaled then 1 / s.D0.getD i 0 else 1) (s.dirVec.getD i 0)).c cI
       else if b = 2 * i + 1 then
         (Pt.scaleQ (if s.scaled then 1 / s.D0.getD i 0 else 1) (s.dirVec.getD i 0)).neg.c cI
       else 0)

/-- What claim C6 asserts of `ThicknessToChordConstraint.evalFunctionsSens`. -/
def ThicknessToChordSensSpec (gu : GU) (g : DVGeo) (s : T2CState) (fs : FuncsSens) (i : ℕ) : Prop :=
  ThicknessToChordConstraint.evalFunctionsSens gu g s fs
      = ((s.name, g.totalSensitivity (ThicknessToChordConstraint.dToCdPt gu s) s.name) :: fs, [s.name])
  ∧ ∀ b cI, ThicknessToChordConstraint.dToCdPt gu s i b cI =
      (if b = 4 * i then
         (((gu.eDistB (s.coords.getD (4 * i) 0) (s.coords.getD (4 * i + 1) 0)).1.divQ
             (gu.eDist (s.coords.getD (4 * i + 2) 0) (s.coords.getD (4 * i + 3) 0))).divQ
           (s.ToC0.getD i 0)).c cI
       else if b = 4 * i + 1 then
         (((gu.eDistB (s.coords.getD (4 * i) 0) (s.coords.getD (4 * i + 1) 0)).2.divQ
             (gu.eDist (s.coords.getD (4 * i + 2) 0) (s.coords.getD (4 * i + 3) 0))).divQ
           (s.ToC0.getD i 0)).c cI
       else if b = 4 * i + 2 then
         (((gu.eDistB (s.coords.getD (4 * i + 2) 0) (s.coords.getD (4 * i + 3) 0)).1.neg.scaleQ
             (gu.eDist (s.coords.getD (4 * i) 0) (s.coords.getD (4 * i + 1) 0)
               / gu.eDist (s.coords.getD (4 * i + 2) 0) (s.coords.getD (4 * i + 3) 0) ^ 2)).divQ
           (s.ToC0.getD i 0)).c cI
       else if b = 4 * i + 3 then
         (((gu.eDistB (s.coords.getD (4 * i + 2) 0) (s.coords.getD (4 * i + 3) 0)).2.neg.scaleQ
             (gu.eDist (s.coords.getD (4 * i) 0) (s.coords.getD (4 * i + 1) 0)
               / gu.eDist (s.coords.getD (4 * i + 2) 0) (s.coords.getD (4 * i + 3) 0) ^ 2)).divQ
           (s.ToC0.getD i 0)).c cI
       else 0)

/-- A concrete instantiation of the abstract numeric helpers, used by the
witness theorems (any other choice would do). -/
def sampleGU : GU :=
  ⟨fun q => q, fun p q => (p.sub q, (p.sub q).neg),
   fun l _ _ => l.sum, fun l _ _ => l.map (fun _ => 1), fun z => z⟩

/-- Concrete coordinates for witnesses: two toothpicks. -/
def sampleCoords : List Pt :=
  [⟨0, 0, 0⟩, ⟨3, 4, 0⟩, ⟨1, 0, 0⟩, ⟨1, 2, 2⟩]

/-- A concrete engine with no design variables. -/
def sampleDVGeo0 : DVGeo := ⟨0, fun _ => sampleCoords, fun _ _ => [], fun _ _ => []⟩

/-- A concrete engine with one design variable. -/
def sampleDVGeo1 : DVGeo := ⟨1, fun _ => sampleCoords, fun _ nm => [(nm, 1)], fun _ nm => [(nm, 2)]⟩

/-- A concrete engine whose two KS-max (and proximity) point-set
sensitivity dictionaries have different key sets. -/
def sampleDVGeoKeys : DVGeo :=
  ⟨2, fun _ => sampleCoords,
   fun _ nm => if nm = "prox_A" then [("alpha", 1)] else [("beta", 2)],
   fun _ nm => if nm = "ks_coords" then [("alpha", 1)] else [("alpha", 3), ("beta", 2)]⟩

/-- A concrete `ThicknessConstraint` state. -/
def sampleTC : TCState := (ThicknessConstraint.init sampleGU "thick" sampleCoords true).1

/-- A concrete `ProjectedThicknessConstraint` state. -/
def samplePTC : PTCState := (ProjectedThicknessConstraint.init sampleGU "proj" sampleCoords true).1

/-- A concrete `ThicknessToChordConstraint` state. -/
def sampleT2C : T2CState := (ThicknessToChordConstraint.init sampleGU "t2c" sampleCoords).1

/-- A concrete `KSMaxThicknessToChordConstraint` state. -/
def sampleKS : KSState :=
  (KSMaxThicknessToChordConstraint.init sampleGU "ks" sampleCoords ⟨0, 0, 0⟩ ⟨10, 0, 0⟩
    50 "exact" true true).1

/-- A concrete `TESlopeConstraint` state (four toothpick points plus one
trailing-edge point). -/
def sampleTES : TESState :=
  (TESlopeConstraint.init sampleGU "tes" (sampleCoords ++ [⟨5, 0, 0⟩]) true).1

/-- A concrete `ProximityConstraint` state. -/
def samplePROX : PROXState :=
  (ProximityConstraint.init sampleGU "prox" [⟨0, 0, 0⟩, ⟨1, 1, 1⟩] [⟨1, 0, 0⟩, ⟨2, 1, 1⟩] true).1
theorem buildRows_eq {β : Type} (w : ℕ → β) (z : β) (n : ℕ) (a : ℕ) :
    buildRows w z n a = if a < n then w a else z := by
  induction n with
  | zero => simp [buildRows]
  | succ k ih =>
    unfold buildRows at ih ⊢
    rw [List.range_succ, List.foldl_append, List.foldl_cons, List.foldl_nil]
    by_cases h : a = k
    · subst h; simp
    · simp only [h, if_false, ih]
      rcases Nat.lt_trichotomy a k with hlt | heq | hgt
      · simp [hlt, Nat.lt_succ_of_lt hlt]
      · exact absurd heq h
      · have h1 : ¬ a < k := Nat.not_lt.mpr (Nat.le_of_lt hgt)
        have h2 : ¬ a < k + 1 := Nat.not_lt.mpr hgt
        simp [h1, h2]

theorem getD_map_range {α : Type} (f : ℕ → α) (n i : ℕ) (d : α) (h : i < n) :
    (((List.range n).map f).getD i d) = f i := by
  rw [List.getD_eq_getElem?_getD]
  rw [List.getElem?_map, List.getElem?_range h]
  rfl

theorem length_map_range {α : Type} (f : ℕ → α) (n : ℕ) :
    ((List.range n).map f).length = n := by
  simp

theorem getD_map_zero (f : ℚ → ℚ) (hf : f 0 = 0) (l : List ℚ) (i : ℕ) :
    ((l.map f).getD i 0) = f (l.getD i 0) := by
  induction l generalizing i with
  | nil => simpa using hf.symm
  | cons a t ih =>
    cases i with
    | zero => rfl
    | succ k => simpa using ih k

/-- C1: `ThicknessConstraint.evalFunctions` (and `ProximityConstraint`
analogously) stores under `funcs[name]` an array of length `nCon` whose
entry `i` is the Euclidean distance between the `i`-th pair of points
returned by `DVGeo.update` (`coords[2i]`/`coords[2i+1]`, resp.
`coordsA[i]`/`coordsB[i]`), divided when `scaled` by the baseline `D0[i]`
computed in the constructor from the initial coordinates. -/
theorem C1_evalFunctions_distances (gu : GU) (g : DVGeo) (s : TCState)
    (p : PROXState) (funcs funcsP : Funcs) (nm : String) (cs cA cB : List Pt)
    (sc : Bool) (i j i0 j0 : ℕ) (hi : i < s.nCon) (hj : j < p.nCon)
    (hi0 : i0 < cs.length / 2) (hj0 : j0 < cA.length) :
    ThicknessEvalSpec gu g s funcs i
  ∧ ProximityEvalSpec gu g p funcsP j
  ∧ ((ThicknessConstraint.init gu nm cs sc).1).D0.getD i0 0
      = gu.eDist (cs.getD (2 * i0) 0) (cs.getD (2 * i0 + 1) 0)
  ∧ ((ProximityConstraint.init gu nm cA cB sc).1).D0.getD j0 0
      = gu.eDist (cA.getD j0 0) (cB.getD j0 0) := by
  refine ⟨⟨rfl, ?_, ?_⟩, ⟨rfl, ?_, ?_⟩, ?_, ?_⟩
  · simp [ThicknessConstraint.Dvals]
  · simp only [ThicknessConstraint.Dvals]
    rw [getD_map_range _ _ _ _ hi]
    rfl
  · simp [ProximityConstraint.Dvals]
  · simp only [ProximityConstraint.Dvals]
    rw [getD_map_range _ _ _ _ hj]
    rfl
  · have h := getD_map_range
      (fun i2 => gu.eNorm ((cs.getD (2 * i2) 0).sub (cs.getD (2 * i2 + 1) 0)))
      (cs.length / 2) i0 0 hi0
    simpa [ThicknessConstraint.init, GU.eDist] using h
  · have h := getD_map_range
      (fun i2 => gu.eNorm ((cA.getD i2 0).sub (cB.getD i2 0)))
      cA.length j0 0 hj0
    simpa [ProximityConstraint.init, GU.eDist] using h

/-- Witness for C1 at concrete inputs. -/
theorem C1_evalFunctions_distances_witness :
    0 < sampleTC.nCon ∧ 0 < samplePROX.nCon ∧
    (ThicknessEvalSpec sampleGU sampleDVGeo1 sampleTC [] 0
     ∧ ProximityEvalSpec sampleGU sampleDVGeo1 samplePROX [] 0
     ∧ ((ThicknessConstraint.init sampleGU "w1" sampleCoords true).1).D0.getD 0 0
         = sampleGU.eDist (sampleCoords.getD (2 * 0) 0) (sampleCoords.getD (2 * 0 + 1) 0)
     ∧ ((ProximityConstraint.init sampleGU "w1" sampleCoords sampleCoords true).1).D0.getD 0 0
         = sampleGU.eDist (sampleCoords.getD 0 0) (sampleCoords.getD 0 0)) :=
  ⟨by decide, by decide,
   C1_evalFunctions_distances sampleGU sampleDVGeo1 sampleTC samplePROX [] [] "w1"
     sampleCoords sampleCoords sampleCoords true 0 0 0 0
     (by decide) (by decide) (by decide) (by decide)⟩

/-- C2: `KSMaxThicknessToChordConstraint.evalFunctions` computes
`ToC[i] = t_i / c` (or `t_i` without `divideByChord`), aggregates with
`KSfunction.compute(ToC, rho, ksApproach)`, divides by the baseline `max0`
when `scaled`, and stores the single scalar under `funcs[name]`. -/
theorem C2_ksmax_evalFunctions (gu : GU) (g : DVGeo) (s : KSState)
    (funcs : FuncsS) (i : ℕ) (hi : i < s.nPoint) :
    KSMaxEvalSpec gu g s funcs i := by
  refine ⟨rfl, rfl, ?_, ?_⟩
  · simp [KSMaxThicknessToChordConstraint.ToCvals]
  · simp only [KSMaxThicknessToChordConstraint.ToCvals]
    rw [getD_map_range _ _ _ _ hi]

/-- Witness for C2 at concrete inputs. -/
theorem C2_ksmax_evalFunctions_witness :
    0 < sampleKS.nPoint ∧ KSMaxEvalSpec sampleGU sampleDVGeo1 sampleKS [] 0 :=
  ⟨by decide, C2_ksmax_evalFunctions sampleGU sampleDVGeo1 sampleKS [] 0 (by decide)⟩

/-- C5: every constructor registers its point sets with
`DVGeo.addPointSet` before computing its baseline reference values —
one set under `name` for `ThicknessConstraint`,
`ProjectedThicknessConstraint`, `ThicknessToChordConstraint` and
`TESlopeConstraint`, two sets `name + "_coords"`, `name + "_lete"` for
`KSMaxThicknessToChordConstraint`, and two sets `name + "_A"`,
`name + "_B"` for `ProximityConstraint`. -/
theorem C5_init_registers_pointsets (gu : GU) (nm : String)
    (coords cA cB : List Pt) (scaled divC : Bool) (lePt tePt : Pt)
    (rho : ℚ) (app : String) :
    (ThicknessConstraint.init gu nm coords scaled).2
        = [.regPointSet nm, .computeBaseline]
  ∧ (ProjectedThicknessConstraint.init gu nm coords scaled).2
        = [.regPointSet nm, .computeBaseline]
  ∧ (ThicknessToChordConstraint.init gu nm coords).2
        = [.regPointSet nm, .computeBaseline]
  ∧ (TESlopeConstraint.init gu nm coords scaled).2
        = [.regPointSet nm, .computeBaseline]
  ∧ (KSMaxThicknessToChordConstraint.init gu nm coords lePt tePt rho app divC scaled).2
        = [.regPointSet (nm ++ "_coords"), .regPointSet (nm ++ "_lete"), .computeBaseline]
  ∧ (ProximityConstraint.init gu nm cA cB scaled).2
        = [.regPointSet (nm ++ "_A"), .regPointSet (nm ++ "_B"), .computeBaseline] :=
  ⟨rfl, rfl, rfl, rfl, rfl, rfl⟩

/-- C7: every `writeTecplot` only appends formatted text to the handle
and returns the constraint state unchanged. -/
theorem C7_writeTecplot_pure (fmt : ℚ → String) (h : List String)
    (sT : TCState) (sP : PTCState) (sC : T2CState) (sK : KSState)
    (sE : TESState) (sX : PROXState) :
    ThicknessConstraint.writeTecplot fmt sT h
        = (sT, h ++ ThicknessConstraint.tecplotLines fmt sT)
  ∧ ProjectedThicknessConstraint.writeTecplot fmt sP h
        = (sP, h ++ ProjectedThicknessConstraint.tecplotLines fmt sP)
  ∧ ThicknessToChordConstraint.writeTecplot fmt sC h
        = (sC, h ++ ThicknessToChordConstraint.tecplotLines fmt sC)
  ∧ KSMaxThicknessToChordConstraint.writeTecplot fmt sK h
        = (sK, h ++ KSMaxThicknessToChordConstraint.tecplotLines fmt sK)
  ∧ TESlopeConstraint.writeTecplot fmt sE h
        = (sE, h ++ TESlopeConstraint.tecplotLines fmt sE)
  ∧ ProximityConstraint.writeTecplot fmt sX h
        = (sX, h ++ ProximityConstraint.tecplotLines fmt sX) :=
  ⟨rfl, rfl, rfl, rfl, rfl, rfl⟩

/-- C8: when `DVGeo.getNDV()` is `0`, every `evalFunctionsSens` leaves
`funcsSens` unchanged and calls `totalSensitivity` on no point set. -/
theorem C8_sens_noop_without_dvs (gu : GU) (g : DVGeo) (hnd : g.ndv = 0)
    (sT : TCState) (sP : PTCState) (sC : T2CState) (sK : KSState)
    (sE : TESState) (sX : PROXState) (fs : FuncsSens) :
    ThicknessConstraint.evalFunctionsSens gu g sT fs = (fs, [])
  ∧ ProjectedThicknessConstraint.evalFunctionsSens g sP fs = (fs, [])
  ∧ ThicknessToChordConstraint.evalFunctionsSens gu g sC fs = (fs, [])
  ∧ KSMaxThicknessToChordConstraint.evalFunctionsSens gu g sK fs = (fs, [])
  ∧ TESlopeConstraint.evalFunctionsSens gu g sE fs = (fs, [])
  ∧ ProximityConstraint.evalFunctionsSens gu g sX fs = (fs, []) := by
  simp [ThicknessConstraint.evalFunctionsSens, ProjectedThicknessConstraint.evalFunctionsSens,
    ThicknessToChordConstraint.evalFunctionsSens,
    KSMaxThicknessToChordConstraint.evalFunctionsSens,
    TESlopeConstraint.evalFunctionsSens, ProximityConstraint.evalFunctionsSens, hnd]

/-- Witness for C8 at concrete inputs. -/
theorem C8_sens_noop_without_dvs_witness :
    sampleDVGeo0.ndv = 0 ∧
    (ThicknessConstraint.evalFunctionsSens sampleGU sampleDVGeo0 sampleTC [] = ([], [])
     ∧ ProjectedThicknessConstraint.evalFunctionsSens sampleDVGeo0 samplePTC [] = ([], [])
     ∧ ThicknessToChordConstraint.evalFunctionsSens sampleGU sampleDVGeo0 sampleT2C [] = ([], [])
     ∧ KSMaxThicknessToChordConstraint.evalFunctionsSens sampleGU sampleDVGeo0 sampleKS [] = ([], [])
     ∧ TESlopeConstraint.evalFunctionsSens sampleGU sampleDVGeo0 sampleTES [] = ([], [])
     ∧ ProximityConstraint.evalFunctionsSens sampleGU sampleDVGeo0 samplePROX [] = ([], [])) :=
  ⟨rfl, C8_sens_noop_without_dvs sampleGU sampleDVGeo0 rfl sampleTC samplePTC sampleT2C
    sampleKS sampleTES samplePROX []⟩

/-- C10: `ThicknessToChordConstraint.evalFunctions` stores
`ToC[i] = (t_i / c_i) / ToC0[i]` unconditionally (there is no `scaled`
flag), so when `DVGeo.update` returns the constructor coordinates every
entry equals `1` (the distances being nonzero). -/
theorem C10_toc_always_normalized (gu : GU) (g : DVGeo) (nm : String)
    (cs : List Pt) (funcs : Funcs) (i : ℕ)
    (hupd : g.update nm = cs)
    (hi : i < ((ThicknessToChordConstraint.init gu nm cs).1).nCon)
    (ht : gu.eDist (cs.getD (4 * i) 0) (cs.getD (4 * i + 1) 0) ≠ 0)
    (hc : gu.eDist (cs.getD (4 * i + 2) 0) (cs.getD (4 * i + 3) 0) ≠ 0) :
    (ThicknessToChordConstraint.evalFunctions gu g
        (ThicknessToChordConstraint.init gu nm cs).1 funcs).2
      = (nm, ThicknessToChordConstraint.ToCvals gu g
          (ThicknessToChordConstraint.init gu nm cs).1) :: funcs
  ∧ (ThicknessToChordConstraint.ToCvals gu g
        (ThicknessToChordConstraint.init gu nm cs).1).getD i 0 = 1 := by
  constructor
  · rfl
  · have hi' : i < cs.length / 4 := hi
    have h1 : ThicknessToChordConstraint.ToCvals gu g
        (ThicknessToChordConstraint.init gu nm cs).1
        = (List.range (cs.length / 4)).map fun k =>
            gu.eDist ((g.update nm).getD (4 * k) 0) ((g.update nm).getD (4 * k + 1) 0) /
              gu.eDist ((g.update nm).getD (4 * k + 2) 0) ((g.update nm).getD (4 * k + 3) 0) /
            (((List.range (cs.length / 4)).map fun k2 =>
                gu.eDist (cs.getD (4 * k2) 0) (cs.getD (4 * k2 + 1) 0) /
                  gu.eDist (cs.getD (4 * k2 + 2) 0) (cs.getD (4 * k2 + 3) 0)).getD k 0) := rfl
    rw [h1, getD_map_range _ _ _ _ hi', getD_map_range _ _ _ _ hi', hupd]
    exact div_self (div_ne_zero ht hc)

/-- Witness for C10 at concrete inputs. -/
theorem C10_toc_always_normalized_witness :
    sampleDVGeo1.update "w10" = sampleCoords ∧
    ((ThicknessToChordConstraint.evalFunctions sampleGU sampleDVGeo1
        (ThicknessToChordConstraint.init sampleGU "w10" sampleCoords).1 []).2
      = ("w10", ThicknessToChordConstraint.ToCvals sampleGU sampleDVGeo1
          (ThicknessToChordConstraint.init sampleGU "w10" sampleCoords).1) :: []
     ∧ (ThicknessToChordConstraint.ToCvals sampleGU sampleDVGeo1
          (ThicknessToChordConstraint.init sampleGU "w10" sampleCoords).1).getD 0 0 = 1) :=
  ⟨rfl, C10_toc_always_normalized sampleGU sampleDVGeo1 "w10" sampleCoords [] 0
    rfl (by decide)
    (by norm_num [sampleGU, GU.eDist, GU.eNorm, Pt.dot, Pt.sub, sampleCoords])
    (by norm_num [sampleGU, GU.eDist, GU.eNorm, Pt.dot, Pt.sub, sampleCoords])⟩

/-- C6: for `ThicknessConstraint`, `ProjectedThicknessConstraint` and
`ThicknessToChordConstraint` with `getNDV() > 0`, `evalFunctionsSens`
builds a Jacobian whose row `i` is nonzero only at the points constraint
`i` depends on (holding the `eDist_b` reverse seeds, scaled per class),
passes it to `DVGeo.totalSensitivity` under the registered point-set name,
and stores the result under `funcsSens[name]`. -/
theorem C6_sens_jacobian_rows (gu : GU) (g : DVGeo) (sT : TCState)
    (sP : PTCState) (sC : T2CState) (fs1 fs2 fs3 : FuncsSens) (i1 i2 i3 : ℕ)
    (h : 0 < g.ndv) (h1 : i1 < sT.nCon) (h2 : i2 < sP.nCon) (h3 : i3 < sC.nCon) :
    ThicknessSensSpec gu g sT fs1 i1
  ∧ ProjectedSensSpec g sP fs2 i2
  ∧ ThicknessToChordSensSpec gu g sC fs3 i3 := by
  refine ⟨⟨?_, ?_⟩, ⟨?_, ?_⟩, ⟨?_, ?_⟩⟩
  · simp [ThicknessConstraint.evalFunctionsSens, h]
  · intro b cI
    simp only [ThicknessConstraint.dTdPt]
    rw [buildRows_eq, if_pos h1]
  · simp [ProjectedThicknessConstraint.evalFunctionsSens, h]
  · intro b cI
    simp only [ProjectedThicknessConstraint.dTdPt]
    rw [buildRows_eq, if_pos h2]
  · simp [ThicknessToChordConstraint.evalFunctionsSens, h]
  · intro b cI
    simp only [ThicknessToChordConstraint.dToCdPt]
    rw [buildRows_eq, if_pos h3]

/-- Witness for C6 at concrete inputs. -/
theorem C6_sens_jacobian_rows_witness :
    0 < sampleDVGeo1.ndv ∧ 0 < sampleTC.nCon ∧ 0 < samplePTC.nCon ∧ 0 < sampleT2C.nCon ∧
    (ThicknessSensSpec sampleGU sampleDVGeo1 sampleTC [] 0
     ∧ ProjectedSensSpec sampleDVGeo1 samplePTC [] 0
     ∧ ThicknessToChordSensSpec sampleGU sampleDVGeo1 sampleT2C [] 0) :=
  ⟨by decide, by decide, by decide, by decide,
   C6_sens_jacobian_rows sampleGU sampleDVGeo1 sampleTC samplePTC sampleT2C [] [] []
     0 0 0 (by decide) (by decide) (by decide) (by decide)⟩

theorem Pt.c_zero (k : ℕ) : (0 : Pt).c k = 0 := by
  rcases k with _ | _ | k <;> rfl

/-- C3: `KSMaxThicknessToChordConstraint.evalFunctionsSens` with
`getNDV() > 0` applies the chain rule: the seed for toothpick endpoint
`(i, k)` is `dKSdToC[i]` times the partial of `ToC[i]` there (`eDist_b`
seeds over `c` when `divideByChord`), the LE/TE seeds are
`Σ_i dKSdToC[i] * (-eDist_b seed * t_i / c²)`, and when `scaled` the
`dKSdToC` vector is divided by `max0` before the chain rule. -/
theorem C3_ksmax_sens_chain_rule (gu : GU) (g : DVGeo) (s : KSState)
    (fs : FuncsSens) (i k : ℕ) (h : 0 < g.ndv) (hi : i < s.nPoint) :
    KSMaxThicknessToChordConstraint.evalFunctionsSens gu g s fs
      = ((s.name,
          (g.totalSensitivityV (KSMaxThicknessToChordConstraint.dKSdCoords gu s)
              (s.name ++ "_coords")).map fun kv =>
            (kv.1, kv.2 + ((g.totalSensitivityV
              (KSMaxThicknessToChordConstraint.dKSdLeTePts gu s)
              (s.name ++ "_lete")).lookup kv.1).getD 0)) :: fs,
         [s.name ++ "_coords", s.name ++ "_lete"])
  ∧ KSMaxSensSeedSpec gu s i k := by
  have e1 : 2 * i / 2 = i := by omega
  have e2 : 2 * i % 2 = 0 := by omega
  have e3 : (2 * i + 1) / 2 = i := by omega
  have e4 : (2 * i + 1) % 2 = 1 := by omega
  have hKS : ∀ i2 : ℕ, (KSMaxThicknessToChordConstraint.dKSdToC gu s).getD i2 0
      = (gu.KSderivs (KSMaxThicknessToChordConstraint.ToCcur gu s) s.rho s.ksApproach).getD i2 0
        / (if s.scaled then s.max0 else 1) := by
    intro i2
    by_cases hs : s.scaled
    · simp only [KSMaxThicknessToChordConstraint.dKSdToC, if_pos hs]
      rw [getD_map_zero (fun x => x / s.max0) (zero_div _)]
    · simp only [KSMaxThicknessToChordConstraint.dKSdToC, if_neg hs]
      rw [div_one]
  have hC0 : KSMaxThicknessToChordConstraint.dToCdCoords gu s i 0
      = (if s.divideByChord then
           (gu.eDistB (s.coords.getD (2 * i) 0) (s.coords.getD (2 * i + 1) 0)).1.divQ
             (gu.eDist (s.leTePts.getD 0 0) (s.leTePts.getD 1 0))
         else (gu.eDistB (s.coords.getD (2 * i) 0) (s.coords.getD (2 * i + 1) 0)).1) := by
    simp only [KSMaxThicknessToChordConstraint.dToCdCoords]
    rw [buildRows_eq, if_pos hi]
    simp
  have hC1 : KSMaxThicknessToChordConstraint.dToCdCoords gu s i 1
      = (if s.divideByChord then
           (gu.eDistB (s.coords.getD (2 * i) 0) (s.coords.getD (2 * i + 1) 0)).2.divQ
             (gu.eDist (s.leTePts.getD 0 0) (s.leTePts.getD 1 0))
         else (gu.eDistB (s.coords.getD (2 * i) 0) (s.coords.getD (2 * i + 1) 0)).2) := by
    simp only [KSMaxThicknessToChordConstraint.dToCdCoords]
    rw [buildRows_eq, if_pos hi]
    simp
  have hL : ∀ i2, i2 < s.nPoint → ∀ j : ℕ,
      KSMaxThicknessToChordConstraint.dToCdLeTePts gu s i2 j
      = (if s.divideByChord then
           (if j = 0 then
              (gu.eDistB (s.leTePts.getD 0 0) (s.leTePts.getD 1 0)).1.neg.scaleQ
                (gu.eDist (s.coords.getD (2 * i2) 0) (s.coords.getD (2 * i2 + 1) 0)
                  / gu.eDist (s.leTePts.getD 0 0) (s.leTePts.getD 1 0) ^ 2)
            else if j = 1 then
              (gu.eDistB (s.leTePts.getD 0 0) (s.leTePts.getD 1 0)).2.neg.scaleQ
                (gu.eDist (s.coords.getD (2 * i2) 0) (s.coords.getD (2 * i2 + 1) 0)
                  / gu.eDist (s.leTePts.getD 0 0) (s.leTePts.getD 1 0) ^ 2)
            else 0)
         else 0) := by
    intro i2 h2 j
    simp only [KSMaxThicknessToChordConstraint.dToCdLeTePts]
    rw [buildRows_eq, if_pos h2]
  refine ⟨?_, ?_, ?_, ?_, ?_⟩
  · simp [KSMaxThicknessToChordConstraint.evalFunctionsSens, h]
  · simp only [KSMaxThicknessToChordConstraint.dKSdCoords]
    rw [e1, e2, hKS i, hC0]
    by_cases hd : s.divideByChord <;> simp [hd]
  · simp only [KSMaxThicknessToChordConstraint.dKSdCoords]
    rw [e3, e4, hKS i, hC1]
    by_cases hd : s.divideByChord <;> simp [hd]
  · by_cases hd : s.divideByChord
    · simp only [KSMaxThicknessToChordConstraint.dKSdLeTePts, if_pos hd]
      refine congrArg List.sum (List.map_congr_left ?_)
      intro i2 hmem
      have h2 : i2 < s.nPoint := List.mem_range.mp hmem
      rw [hKS i2, hL i2 h2 0]
      simp [hd]
    · simp only [KSMaxThicknessToChordConstraint.dKSdLeTePts, if_neg hd]
      apply List.sum_eq_zero
      intro q hq
      obtain ⟨i2, hmem, rfl⟩ := List.mem_map.mp hq
      have h2 := List.mem_range.mp hmem
      rw [hL i2 h2 0]
      simp [hd, Pt.c_zero]
  · by_cases hd : s.divideByChord
    · simp only [KSMaxThicknessToChordConstraint.dKSdLeTePts, if_pos hd]
      refine congrArg List.sum (List.map_congr_left ?_)
      intro i2 hmem
      have h2 : i2 < s.nPoint := List.mem_range.mp hmem
      rw [hKS i2, hL i2 h2 1]
      simp [hd]
    · simp only [KSMaxThicknessToChordConstraint.dKSdLeTePts, if_neg hd]
      apply List.sum_eq_zero
      intro q hq
      obtain ⟨i2, hmem, rfl⟩ := List.mem_map.mp hq
      have h2 := List.mem_range.mp hmem
      rw [hL i2 h2 1]
      simp [hd, Pt.c_zero]

/-- Witness for C3 at concrete inputs. -/
theorem C3_ksmax_sens_chain_rule_witness :
    0 < sampleDVGeo1.ndv ∧ 0 < sampleKS.nPoint ∧
    (KSMaxThicknessToChordConstraint.evalFunctionsSens sampleGU sampleDVGeo1 sampleKS []
      = ((sampleKS.name,
          (sampleDVGeo1.totalSensitivityV
              (KSMaxThicknessToChordConstraint.dKSdCoords sampleGU sampleKS)
              (sampleKS.name ++ "_coords")).map fun kv =>
            (kv.1, kv.2 + ((sampleDVGeo1.totalSensitivityV
              (KSMaxThicknessToChordConstraint.dKSdLeTePts sampleGU sampleKS)
              (sampleKS.name ++ "_lete")).lookup kv.1).getD 0)) :: [],
         [sampleKS.name ++ "_coords", sampleKS.name ++ "_lete"])
     ∧ KSMaxSensSeedSpec sampleGU sampleKS 0 0) :=
  ⟨by decide, by decide,
   C3_ksmax_sens_chain_rule sampleGU sampleDVGeo1 sampleKS [] 0 0 (by decide) (by decide)⟩

theorem lookup_map_second_none (tmp1 : SensDict) (k : String) :
    ∀ tmp0 : SensDict, tmp0.lookup k = none →
      (tmp0.map fun kv => (kv.1, kv.2 + ((tmp1.lookup kv.1).getD 0))).lookup k = none := by
  intro tmp0
  induction tmp0 with
  | nil => intro _; rfl
  | cons a rest ih =>
    obtain ⟨a1, a2⟩ := a
    intro h
    cases h2 : (k == a1) with
    | true => simp [List.lookup, h2] at h
    | false =>
      simp only [List.lookup, h2] at h
      simp only [List.map, List.lookup, h2]
      exact ih h

theorem lookup_map_keypreserving_isSome (F : String × ℚ → String × ℚ)
    (hF : ∀ p, (F p).1 = p.1) (k : String) :
    ∀ d : SensDict, ((d.map F).lookup k).isSome = (d.lookup k).isSome := by
  intro d
  induction d with
  | nil => rfl
  | cons a rest ih =>
    obtain ⟨a1, a2⟩ := a
    rcases hFa : F (a1, a2) with ⟨b1, b2⟩
    have hb : b1 = a1 := by
      have h1 := hF (a1, a2)
      rw [hFa] at h1
      exact h1
    subst hb
    simp only [List.map, hFa]
    cases h2 : (k == b1) <;> simp [List.lookup, h2, ih]

theorem lookup_append_isSome (e : SensDict) (k : String) :
    ∀ d : SensDict,
      (((d ++ e).lookup k).isSome : Bool) = ((d.lookup k).isSome || (e.lookup k).isSome) := by
  intro d
  induction d with
  | nil => rfl
  | cons a rest ih =>
    obtain ⟨a1, a2⟩ := a
    cases h2 : (k == a1) <;> simp [List.lookup, h2, ih]

theorem dictSet_lookup_isSome (d : SensDict) (k k2 : String) (v : ℚ)
    (h : ((d.lookup k2).isSome : Prop) ∨ k2 = k) :
    ((dictSet d k v).lookup k2).isSome := by
  unfold dictSet
  by_cases hp : ((d.lookup k).isSome : Prop)
  · rw [if_pos hp]
    have hkey : ∀ p : String × ℚ, ((if p.1 = k then (k, v) else p).1) = p.1 := by
      intro p
      by_cases h3 : p.1 = k <;> simp [h3]
    rw [lookup_map_keypreserving_isSome _ hkey k2 d]
    rcases h with h | rfl
    · exact h
    · exact hp
  · rw [if_neg hp, lookup_append_isSome]
    rcases h with h | rfl
    · simp [h]
    · simp [List.lookup]

theorem dictAddInto_lookup_isSome (d : SensDict) (kv : String × ℚ) (k2 : String)
    (h : ((d.lookup k2).isSome : Prop) ∨ k2 = kv.1) :
    ((dictAddInto d kv).lookup k2).isSome := by
  unfold dictAddInto
  by_cases hp : ((d.lookup kv.1).isSome : Prop)
  · rw [if_pos hp]
    have hkey : ∀ p : String × ℚ, ((if p.1 = kv.1 then (p.1, p.2 + kv.2) else p).1) = p.1 := by
      intro p
      by_cases h3 : p.1 = kv.1 <;> simp [h3]
    rw [lookup_map_keypreserving_isSome _ hkey k2 d]
    rcases h with h | rfl
    · exact h
    · exact hp
  · rw [if_neg hp, lookup_append_isSome]
    rcases h with h | rfl
    · simp [h]
    · simp [List.lookup]

theorem foldl_dictSet_lookup_isSome (k : String) :
    ∀ a d0 : SensDict, (((d0.lookup k).isSome : Prop) ∨ ((a.lookup k).isSome : Prop)) →
      (((a.foldl (fun d kv => dictSet d kv.1 kv.2) d0)).lookup k).isSome := by
  intro a
  induction a with
  | nil =>
    intro d0 h
    rcases h with h | h
    · exact h
    · simp [List.lookup] at h
  | cons b rest ih =>
    intro d0 h
    obtain ⟨b1, b2⟩ := b
    simp only [List.foldl]
    apply ih
    rcases h with h | h
    · exact Or.inl (dictSet_lookup_isSome _ _ _ _ (Or.inl h))
    · cases h2 : (k == b1) with
      | true =>
        exact Or.inl (dictSet_lookup_isSome _ _ _ _ (Or.inr (eq_of_beq h2)))
      | false =>
        simp only [List.lookup, h2] at h
        exact Or.inr h

theorem foldl_dictAddInto_lookup_isSome (k : String) :
    ∀ b d0 : SensDict, (((d0.lookup k).isSome : Prop) ∨ ((b.lookup k).isSome : Prop)) →
      ((b.foldl dictAddInto d0).lookup k).isSome := by
  intro b
  induction b with
  | nil =>
    intro d0 h
    rcases h with h | h
    · exact h
    · simp [List.lookup] at h
  | cons c rest ih =>
    intro d0 h
    obtain ⟨c1, c2⟩ := c
    simp only [List.foldl]
    apply ih
    rcases h with h | h
    · exact Or.inl (dictAddInto_lookup_isSome _ _ _ (Or.inl h))
    · cases h2 : (k == c1) with
      | true =>
        exact Or.inl (dictAddInto_lookup_isSome _ _ _ (Or.inr (eq_of_beq h2)))
      | false =>
        simp only [List.lookup, h2] at h
        exact Or.inr h

/-- C9: when merging its two point-set sensitivities,
`KSMaxThicknessToChordConstraint.evalFunctionsSens` iterates only over
the keys of the coords result, so a key present only in the LE/TE result
is dropped from `funcsSens[name]`; `ProximityConstraint.evalFunctionsSens`
keeps every key present in either of its two results. -/
theorem C9_sens_dict_key_merge (gu : GU) (g : DVGeo) (s : KSState)
    (sx : PROXState) (fs fsx : FuncsSens) (k k2 : String)
    (h : 0 < g.ndv)
    (hk1 : ((g.totalSensitivityV (KSMaxThicknessToChordConstraint.dKSdLeTePts gu s)
            (s.name ++ "_lete")).lookup k).isSome)
    (hk0 : (g.totalSensitivityV (KSMaxThicknessToChordConstraint.dKSdCoords gu s)
            (s.name ++ "_coords")).lookup k = none)
    (hk2 : ((g.totalSensitivity (ProximityConstraint.dTdPtA gu sx)
              (sx.name ++ "_A")).lookup k2).isSome
         ∨ ((g.totalSensitivity (ProximityConstraint.dTdPtB gu sx)
              (sx.name ++ "_B")).lookup k2).isSome) :
    ((g.totalSensitivityV (KSMaxThicknessToChordConstraint.dKSdCoords gu s)
        (s.name ++ "_coords")).map fun kv =>
      (kv.1, kv.2 + ((g.totalSensitivityV (KSMaxThicknessToChordConstraint.dKSdLeTePts gu s)
        (s.name ++ "_lete")).lookup kv.1).getD 0)).lookup k = none
  ∧ (KSMaxThicknessToChordConstraint.evalFunctionsSens gu g s fs).1
      = (s.name,
         (g.totalSensitivityV (KSMaxThicknessToChordConstraint.dKSdCoords gu s)
            (s.name ++ "_coords")).map fun kv =>
           (kv.1, kv.2 + ((g.totalSensitivityV (KSMaxThicknessToChordConstraint.dKSdLeTePts gu s)
             (s.name ++ "_lete")).lookup kv.1).getD 0)) :: fs
  ∧ ((ProximityConstraint.combine
        (g.totalSensitivity (ProximityConstraint.dTdPtA gu sx) (sx.name ++ "_A"))
        (g.totalSensitivity (ProximityConstraint.dTdPtB gu sx) (sx.name ++ "_B"))).lookup k2).isSome
  ∧ (ProximityConstraint.evalFunctionsSens gu g sx fsx).1
      = (sx.name,
         ProximityConstraint.combine
           (g.totalSensitivity (ProximityConstraint.dTdPtA gu sx) (sx.name ++ "_A"))
           (g.totalSensitivity (ProximityConstraint.dTdPtB gu sx) (sx.name ++ "_B"))) :: fsx := by
  refine ⟨?_, ?_, ?_, ?_⟩
  · exact lookup_map_second_none _ _ _ hk0
  · simp [KSMaxThicknessToChordConstraint.evalFunctionsSens, h]
  · unfold ProximityConstraint.combine
    apply foldl_dictAddInto_lookup_isSome
    rcases hk2 with h2 | h2
    · exact Or.inl (foldl_dictSet_lookup_isSome _ _ _ (Or.inr h2))
    · exact Or.inr h2
  · simp [ProximityConstraint.evalFunctionsSens, h]

/-- Witness for C9 at concrete inputs. -/
theorem C9_sens_dict_key_merge_witness :
    0 < sampleDVGeoKeys.ndv ∧
    ((sampleDVGeoKeys.totalSensitivityV
        (KSMaxThicknessToChordConstraint.dKSdLeTePts sampleGU sampleKS)
        (sampleKS.name ++ "_lete")).lookup "beta").isSome = true ∧
    (sampleDVGeoKeys.totalSensitivityV
        (KSMaxThicknessToChordConstraint.dKSdCoords sampleGU sampleKS)
        (sampleKS.name ++ "_coords")).lookup "beta" = none ∧
    (((sampleDVGeoKeys.totalSensitivityV
        (KSMaxThicknessToChordConstraint.dKSdCoords sampleGU sampleKS)
        (sampleKS.name ++ "_coords")).map fun kv =>
      (kv.1, kv.2 + ((sampleDVGeoKeys.totalSensitivityV
        (KSMaxThicknessToChordConstraint.dKSdLeTePts sampleGU sampleKS)
        (sampleKS.name ++ "_lete")).lookup kv.1).getD 0)).lookup "beta" = none
     ∧ (KSMaxThicknessToChordConstraint.evalFunctionsSens sampleGU sampleDVGeoKeys sampleKS []).1
         = (sampleKS.name,
            (sampleDVGeoKeys.totalSensitivityV
               (KSMaxThicknessToChordConstraint.dKSdCoords sampleGU sampleKS)
               (sampleKS.name ++ "_coords")).map fun kv =>
              (kv.1, kv.2 + ((sampleDVGeoKeys.totalSensitivityV
                (KSMaxThicknessToChordConstraint.dKSdLeTePts sampleGU sampleKS)
                (sampleKS.name ++ "_lete")).lookup kv.1).getD 0)) :: []
     ∧ ((ProximityConstraint.combine
           (sampleDVGeoKeys.totalSensitivity
             (ProximityConstraint.dTdPtA sampleGU samplePROX) (samplePROX.name ++ "_A"))
           (sampleDVGeoKeys.totalSensitivity
             (ProximityConstraint.dTdPtB sampleGU samplePROX) (samplePROX.name ++ "_B"))).lookup
         "beta").isSome
     ∧ (ProximityConstraint.evalFunctionsSens sampleGU sampleDVGeoKeys samplePROX []).1
         = (samplePROX.name,
            ProximityConstraint.combine
              (sampleDVGeoKeys.totalSensitivity
                (ProximityConstraint.dTdPtA sampleGU samplePROX) (samplePROX.name ++ "_A"))
              (sampleDVGeoKeys.totalSensitivity
                (ProximityConstraint.dTdPtB sampleGU samplePROX) (samplePROX.name ++ "_B"))) :: []) :=
  ⟨by decide, rfl, rfl,
   C9_sens_dict_key_merge sampleGU sampleDVGeoKeys sampleKS samplePROX [] [] "beta" "beta"
     (by decide) rfl rfl (Or.inr rfl)⟩

theorem GQ.add_add_neg (x s : GQ) : (x.add s).add s.neg = x := by
  cases x
  cases s
  simp only [GQ.add, GQ.neg, GQ.mk.injEq]
  constructor <;> ring

theorem GPt.pert_cancel (j : ℕ) (p : GPt) :
    GPt.pert j stepImag.neg (GPt.pert j stepImag p) = p := by
  unfold GPt.pert
  by_cases h0 : j = 0
  · simp [h0, GQ.add_add_neg]
  · by_cases h1 : j = 1 <;> simp [h0, h1, GQ.add_add_neg]

theorem updAt_updAt {α : Type} (f g : α → α) :
    ∀ (l : List α) (i : ℕ), updAt (updAt l i f) i g = updAt l i (fun a => g (f a)) := by
  intro l
  induction l with
  | nil => intro i; rfl
  | cons a t ih =>
    intro i
    cases i with
    | zero => rfl
    | succ n => simp [updAt, ih]

theorem updAt_congr_id {α : Type} (f : α → α) (hf : ∀ a, f a = a) :
    ∀ (l : List α) (i : ℕ), updAt l i f = l := by
  intro l
  induction l with
  | nil => intro i; rfl
  | cons a t ih =>
    intro i
    cases i with
    | zero => simp [updAt, hf a]
    | succ n => simp [updAt, ih]

theorem sensStep_fst (gu : GU) (s : TESState) (st : List GPt × Jac) (ij : ℕ × ℕ) :
    (TESlopeConstraint.sensStep gu s st ij).1 = st.1 := by
  simp only [TESlopeConstraint.sensStep]
  rw [updAt_updAt]
  exact updAt_congr_id _ (fun p => GPt.pert_cancel ij.2 p) st.1 ij.1

theorem teLoop_fst (gu : GU) (s : TESState) :
    ∀ (pairs : List (ℕ × ℕ)) (c0 : List GPt) (m : Jac),
      ((pairs.foldl (TESlopeConstraint.sensStep gu s) (c0, m)).1) = c0 := by
  intro pairs
  induction pairs with
  | nil => intro c0 m; rfl
  | cons p rest ih =>
    intro c0 m
    rw [List.foldl_cons]
    rcases hstep : TESlopeConstraint.sensStep gu s (c0, m) p with ⟨c', m'⟩
    have hc : c' = c0 := by
      have h1 := sensStep_fst gu s (c0, m) p
      rw [hstep] at h1
      exact h1
    subst hc
    exact ih c' m'

theorem teLoop_matrix (gu : GU) (s : TESState) :
    ∀ (pairs : List (ℕ × ℕ)) (c0 : List GPt) (m : Jac) (k a b : ℕ),
      ((pairs.foldl (TESlopeConstraint.sensStep gu s) (c0, m)).2) k a b
        = if (a, b) ∈ pairs then
            ((TESlopeConstraint.computeC gu s.nCon s.teSlope0 s.scaled
                (updAt c0 a (GPt.pert b stepImag))).getD k 0).im / stepReal
          else m k a b := by
  intro pairs
  induction pairs with
  | nil => intro c0 m k a b; simp
  | cons p rest ih =>
    intro c0 m k a b
    obtain ⟨p1, p2⟩ := p
    rw [List.foldl_cons]
    have hstep : TESlopeConstraint.sensStep gu s (c0, m) (p1, p2)
        = (c0, fun k2 a2 b2 =>
            if a2 = p1 ∧ b2 = p2 then
              ((TESlopeConstraint.computeC gu s.nCon s.teSlope0 s.scaled
                 (updAt c0 p1 (GPt.pert p2 stepImag))).getD k2 0).im / stepReal
            else m k2 a2 b2) := by
      rcases hs2 : TESlopeConstraint.sensStep gu s (c0, m) (p1, p2) with ⟨c', m'⟩
      have hc : c' = c0 := by
        have h1 := sensStep_fst gu s (c0, m) (p1, p2)
        rw [hs2] at h1
        exact h1
      have hm : m' = fun k2 a2 b2 =>
          if a2 = p1 ∧ b2 = p2 then
            ((TESlopeConstraint.computeC gu s.nCon s.teSlope0 s.scaled
               (updAt c0 p1 (GPt.pert p2 stepImag))).getD k2 0).im / stepReal
          else m k2 a2 b2 := by
        have h2 : (TESlopeConstraint.sensStep gu s (c0, m) (p1, p2)).2 = m' := by rw [hs2]
        rw [← h2]
        rfl
      rw [hc, hm]
    rw [hstep, ih]
    by_cases hmem : (a, b) ∈ rest
    · simp [hmem, List.mem_cons]
    · simp only [hmem, if_false]
      by_cases hab : a = p1 ∧ b = p2
      · obtain ⟨ha, hb⟩ := hab
        subst ha
        subst hb
        simp [List.mem_cons]
      · have hne : ¬((a, b) = (p1, p2)) := by
          intro hcontra
          apply hab
          exact ⟨congrArg Prod.fst hcontra, congrArg Prod.snd hcontra⟩
        simp [List.mem_cons, hne, hmem, hab]

theorem mem_loopPairs (s : TESState) (i j : ℕ)
    (hi : i < s.coords.length) (hj : j < 3) :
    (i, j) ∈ TESlopeConstraint.loopPairs s := by
  unfold TESlopeConstraint.loopPairs
  apply List.mem_flatten.mpr
  refine ⟨(List.range 3).map (fun j2 => (i, j2)), ?_, ?_⟩
  · exact List.mem_map.mpr ⟨i, List.mem_range.mpr hi, rfl⟩
  · exact List.mem_map.mpr ⟨j, List.mem_range.mpr hj, rfl⟩

/-- C4: `TESlopeConstraint.evalFunctionsSens` with `getNDV() > 0` fills
column `(i, j)` of the Jacobian with the imaginary part of `_compute` at
the coordinates perturbed by `1e-40j` in entry `(i, j)` alone, divided by
the real step `1e-40`; each perturbation is removed before the next, so
the loop's coordinates end equal to the unperturbed complex copy. -/
theorem C4_teslope_complex_step (gu : GU) (g : DVGeo) (s : TESState)
    (fs : FuncsSens) (k i j : ℕ) (h : 0 < g.ndv)
    (hi : i < s.coords.length) (hj : j < 3) :
    TESlopeConstraint.evalFunctionsSens gu g s fs
      = ((s.name, g.totalSensitivity (TESlopeConstraint.dTeSlopePt gu s) s.name) :: fs, [s.name])
  ∧ ((TESlopeConstraint.loopPairs s).foldl (TESlopeConstraint.sensStep gu s)
      (s.coords.map Pt.toGQ, fun _ _ _ => 0)).1 = s.coords.map Pt.toGQ
  ∧ TESlopeConstraint.dTeSlopePt gu s k i j
      = ((TESlopeConstraint.computeC gu s.nCon s.teSlope0 s.scaled
          (updAt (s.coords.map Pt.toGQ) i (GPt.pert j stepImag))).getD k 0).im / stepReal := by
  refine ⟨?_, ?_, ?_⟩
  · simp [TESlopeConstraint.evalFunctionsSens, h]
  · exact teLoop_fst gu s (TESlopeConstraint.loopPairs s) (s.coords.map Pt.toGQ) _
  · unfold TESlopeConstraint.dTeSlopePt
    rw [teLoop_matrix gu s (TESlopeConstraint.loopPairs s) (s.coords.map Pt.toGQ) _ k i j]
    rw [if_pos (mem_loopPairs s i j hi hj)]

/-- Witness for C4 at concrete inputs. -/
theorem C4_teslope_complex_step_witness :
    0 < sampleDVGeo1.ndv ∧ 0 < sampleTES.coords.length ∧ (0 : ℕ) < 3 ∧
    (TESlopeConstraint.evalFunctionsSens sampleGU sampleDVGeo1 sampleTES []
      = ((sampleTES.name,
          sampleDVGeo1.totalSensitivity (TESlopeConstraint.dTeSlopePt sampleGU sampleTES)
            sampleTES.name) :: [], [sampleTES.name])
     ∧ ((TESlopeConstraint.loopPairs sampleTES).foldl
          (TESlopeConstraint.sensStep sampleGU sampleTES)
          (sampleTES.coords.map Pt.toGQ, fun _ _ _ => 0)).1 = sampleTES.coords.map Pt.toGQ
     ∧ TESlopeConstraint.dTeSlopePt sampleGU sampleTES 0 0 0
         = ((TESlopeConstraint.computeC sampleGU sampleTES.nCon sampleTES.teSlope0
             sampleTES.scaled
             (updAt (sampleTES.coords.map Pt.toGQ) 0 (GPt.pert 0 stepImag))).getD 0 0).im
           / stepReal) :=
  ⟨by decide, by decide, by decide,
   C4_teslope_complex_step sampleGU sampleDVGeo1 sampleTES [] 0 0 0
     (by decide) (by decide) (by decide)⟩
